import Mathlib

/-!
Verification of the ququ ASR worker servers (funasr_server.py,
firered_asr_server.py, glm_asr_server.py) against their natural-language
specification.  The three Python servers are shallowly embedded below:
each server's mutable object state becomes a structure, every external
effect (model loading, model invocation, file probing, library imports,
audio-duration probing) is an oracle recorded in an environment
structure, and the stdin/stdout protocol loop becomes a recursive
function over a list of input lines.  JSON response objects are embedded
as ordered key/value lists, mirroring the Python dict literals verbatim.
Observable side effects that the specification talks about (whether an
initialization attempt happened, whether a model was invoked) are
recorded in an explicit event trace.
-/

/-- Embedded JSON values: the servers only ever emit booleans, strings,
numbers and (for the stats command) nested objects. Python floats are
modelled as exact rationals. -/
inductive JVal where
  | b (v : Bool)
  | s (v : String)
  | q (v : ℚ)
  | obj (kvs : List (String × JVal))

/-- A JSON response object, as the ordered list of its key/value pairs
(mirroring the Python dict literals, which have no duplicate keys). -/
abbrev Response := List (String × JVal)

/-- Field lookup in a response object (first match; the embedded dict
literals never repeat a key). -/
def getField (r : Response) (k : String) : Option JVal :=
  match r with
  | [] => none
  | (k', v) :: rest => if k' = k then some v else getField rest k

/-- Whether a response object carries the field success with value true. -/
def isSuccess (r : Response) : Bool :=
  match getField r "success" with
  | some (JVal.b true) => true
  | _ => false

/-- Observable effects of command handling that the specification
mentions: initialization attempts, model invocations, punctuation
restoration invocations and memory-reclamation passes. -/
inductive Event where
  | initAttempt
  | vadInvoke
  | asrInvoke
  | puncInvoke
  | cleanupPass
deriving DecidableEq, Repr

/-- Python exceptions, split by the classes the servers catch
selectively (funasr check_status catches only ImportError; the
transcription and loop handlers catch Exception). -/
inductive PyExn where
  | importError (msg : String)
  | otherError (msg : String)
deriving DecidableEq, Repr

/-- Message carried by an exception. -/
def exnMsg : PyExn → String
  | PyExn.importError m => m
  | PyExn.otherError m => m

/-- Floor of a rational as an integer. -/
def ratFloorZ (q : ℚ) : ℤ :=
  ⌊q⌋

/-- Leading-whitespace removal on a character list. -/
def pyStripCore : List Char → List Char
  | [] => []
  | c :: cs => if c.isWhitespace then pyStripCore cs else c :: cs

/-- Python str.strip: drop whitespace from both ends of a string. -/
def pyStrip (s : String) : String :=
  String.mk (List.reverse (pyStripCore (List.reverse (pyStripCore s.data))))

/-- Round-half-to-even on rationals, the rounding mode of Python's
built-in round. -/
def roundHalfEven (q : ℚ) : ℤ :=
  let f := ratFloorZ q
  let frac := q - (f : ℚ)
  if frac < 1/2 then f
  else if (1/2 : ℚ) < frac then f + 1
  else if f % 2 = 0 then f else f + 1

/-- Python round(x, 2): round to two decimal places, half to even.
(The binary floating-point representation error of the Python value is
abstracted away: durations are modelled as exact rationals.) -/
def pyRound2 (q : ℚ) : ℚ :=
  (roundHalfEven (q * 100) : ℚ) / 100

/-- The recognized option keys of the transcribe command that are
observable in this embedding (funasr reads use_vad; the remaining keys
only parameterize the opaque model invocations). -/
structure TranscribeOptions where
  use_vad : Option Bool
  beam_size : Option ℕ
  max_new_tokens : Option ℕ
deriving DecidableEq, Repr

/-- Options object with no keys set (the dispatcher's default). -/
def noOptions : TranscribeOptions :=
  { use_vad := none, beam_size := none, max_new_tokens := none }

/-- A decoded command: the action string plus the fields the servers
read from it (command.get returns None for absent keys). -/
structure Command where
  action : Option String
  audio_path : Option String
  options : TranscribeOptions
deriving DecidableEq, Repr

/-- One stdin line as seen by the read loop: the raw text (readline
returns the empty string exactly at end of stream) together with the
result of json.loads on it, modelled as an oracle (some command or a
decode failure). The parse field is only consulted for lines that
survive strip. -/
structure RawLine where
  text : String
  parsed : Option Command

/-- Why the protocol loop stopped reading. -/
inductive StopReason where
  | endOfInput
  | exitCommand
deriving DecidableEq, Repr

/-- Result of a protocol-loop run: final server state, the emitted
response lines in order, and why the loop stopped. -/
structure LoopOut (St : Type) where
  state : St
  outputs : List Response
  stopped : StopReason

/-- The shared read-decode-dispatch-encode-write loop of the three
servers (their run methods are line-for-line identical apart from the
invalid-JSON message text). handle returns the new state, the response
to print, and whether to break out of the loop after printing (true
exactly for the exit command). An empty readline result means end of
stream; a whitespace-only line is skipped without output; a line that
fails to decode yields one error response and the loop continues. -/
def runLoop {St : Type} (handle : St → Command → St × Response × Bool)
    (invalidMsg : String) (s : St) : List RawLine → LoopOut St
  | [] => { state := s, outputs := [], stopped := StopReason.endOfInput }
  | l :: rest =>
    if l.text = "" then
      { state := s, outputs := [], stopped := StopReason.endOfInput }
    else if pyStrip l.text = "" then
      runLoop handle invalidMsg s rest
    else
      match l.parsed with
      | none =>
        let out := runLoop handle invalidMsg s rest
        { state := out.state
          outputs := [("success", JVal.b false), ("error", JVal.s invalidMsg)] :: out.outputs
          stopped := out.stopped }
      | some c =>
        match handle s c with
        | (s', r, true) => { state := s', outputs := [r], stopped := StopReason.exitCommand }
        | (s', r, false) =>
          let out := runLoop handle invalidMsg s' rest
          { state := out.state, outputs := r :: out.outputs, stopped := out.stopped }

/-- The per-request failure response shape the transcription handlers
produce from their blanket except clause. -/
def transcriptionError (msg : String) : Response :=
  [("success", JVal.b false), ("error", JVal.s msg), ("type", JVal.s "transcription_error")]

/-- Rendering of command.get for the unknown-action message (Python
formats the None object as the text None). -/
def pyShow : Option String → String
  | some a => a
  | none => "None"

/-! ## FunASR server (funasr_server.py) -/

/-- One element of the list the FunASR generate call may return, as far
as transcribe_audio inspects it: whether it is a dict carrying a text
key (and that text), its str rendering used otherwise, and the
confidence attribute that getattr would find on it (none makes getattr
fall back to its 0.0 default, as it does for plain dicts). -/
structure AsrItem where
  text : Option String
  repr : String
  confidence : Option ℚ

/-- The value returned by the FunASR generate call: a Python list of
result items, or some non-list value identified by its str
rendering. -/
inductive AsrResult where
  | items (xs : List AsrItem)
  | scalar (repr : String)

/-- The raw-text extraction of funasr_server.py lines 282-288: a
non-empty list yields the first item's text key (or its str rendering
when it is not a dict with a text key); anything else — including the
empty list — is rendered with str. -/
def FunASRServer.extractRawText : AsrResult → String
  | AsrResult.items [] => "[]"
  | AsrResult.items (x :: _) =>
    match x.text with
    | some t => t
    | none => x.repr
  | AsrResult.scalar _r => _r

/-- The confidence expression of the success dict (funasr_server.py
lines 298-302): for a list result it evaluates asr_result[0] — raising
IndexError on an empty list — and getattr with default 0.0 on the
first item; for a non-list result it is the constant 0.0. -/
def FunASRServer.confidenceExpr : AsrResult → Except PyExn ℚ
  | AsrResult.items [] => Except.error (PyExn.otherError "list index out of range")
  | AsrResult.items (x :: _) => Except.ok (x.confidence.getD 0)
  | AsrResult.scalar _ => Except.ok 0

/-- Oracle for everything external to the FunASR server object: whether
the model files are present on disk at startup, whether each model-load
thread succeeds, whether the load phase times out, file existence,
model invocations, the librosa duration probe (none models a raised
exception, swallowed by _get_audio_duration), and whether the funasr
package imports (carrying its version string). -/
structure FunEnv where
  modelsPresent : Bool
  asrLoadOk : Bool
  vadLoadOk : Bool
  loadTimeout : Bool
  fileExists : String → Bool
  vadGen : String → Except String Unit
  asrGen : String → Except String AsrResult
  audioDuration : String → Option ℚ
  funasrVersion : Option String

/-- An oracle under which the FunASR generate call never returns an
empty result list (the corner that makes the confidence expression
raise after the counters were already advanced). -/
def FunEnv.noEmptyAsrResult (env : FunEnv) : Prop :=
  ∀ p, env.asrGen p ≠ Except.ok (AsrResult.items [])

/-- Mutable state of the FunASRServer object. -/
structure FunState where
  asrLoaded : Bool
  vadLoaded : Bool
  initialized : Bool
  transcription_count : ℕ
  total_audio_duration : ℚ
deriving DecidableEq, Repr

/-- State of a freshly constructed FunASRServer. -/
def funasrStart : FunState :=
  { asrLoaded := false, vadLoaded := false, initialized := false
    transcription_count := 0, total_audio_duration := 0 }

/-- FunASRServer.initialize: idempotent once initialized; otherwise one
parallel load pass of the asr and vad models with a shared timeout.
A load thread that succeeds assigns its model attribute even when the
other thread fails, so the loaded flags advance on a failed pass too
(on timeout the flags are left as-is: the source stops waiting without
observing the threads). The timing figures interpolated into the
success and log messages are abstracted away. -/
def FunASRServer.initModels (env : FunEnv) (s : FunState) : FunState × Response × List Event :=
  if s.initialized then
    (s, [("success", JVal.b true), ("message", JVal.s "模型已初始化")], [])
  else if env.loadTimeout then
    (s, [("success", JVal.b false), ("error", JVal.s "模型加载超时"),
         ("type", JVal.s "timeout_error")], [Event.initAttempt])
  else
    let s' : FunState :=
      { s with asrLoaded := s.asrLoaded || env.asrLoadOk
               vadLoaded := s.vadLoaded || env.vadLoadOk }
    let failed : List String :=
      (if env.asrLoadOk then [] else ["asr"]) ++ (if env.vadLoadOk then [] else ["vad"])
    if failed.isEmpty then
      ({ s' with initialized := true },
       [("success", JVal.b true), ("message", JVal.s "FunASR模型并行初始化成功")],
       [Event.initAttempt])
    else
      (s', [("success", JVal.b false),
            ("error", JVal.s ("以下模型加载失败: " ++ String.intercalate ", " failed)),
            ("type", JVal.s "init_error")], [Event.initAttempt])

/-- The try block of FunASRServer.transcribe_audio (everything after the
lazy-initialization gate): existence check, optional VAD pre-pass,
ASR invocation, raw-text extraction, duration probe, counter updates
and the construction of the result dict. Evaluating the confidence
expression while building that dict raises IndexError on an empty
result list — after transcription_count and total_audio_duration were
already advanced — and the blanket except then returns a
transcription_error response with the counters incremented. ev0 is the
trace accumulated by the gate. -/
def FunASRServer.transcribeBody (env : FunEnv) (s : FunState)
    (audio_path : Option String) (options : TranscribeOptions) (ev0 : List Event) :
    FunState × Response × List Event :=
  match audio_path with
  | none =>
    -- os.path.exists(None) raises TypeError, caught by the blanket except
    (s, transcriptionError "音频转录失败: TypeError", ev0)
  | some p =>
    if env.fileExists p = false then
      (s, [("success", JVal.b false), ("error", JVal.s ("音频文件不存在: " ++ p))], ev0)
    else
      let useVad := options.use_vad.getD true
      let ev1 := ev0 ++ (if useVad then [Event.vadInvoke] else [])
      let vadStep : Except String Unit := if useVad then env.vadGen p else Except.ok ()
      match vadStep with
      | Except.error e => (s, transcriptionError ("音频转录失败: " ++ e), ev1)
      | Except.ok _ =>
        let ev2 := ev1 ++ [Event.asrInvoke]
        match env.asrGen p with
        | Except.error e => (s, transcriptionError ("音频转录失败: " ++ e), ev2)
        | Except.ok asr_result =>
          let raw_text := FunASRServer.extractRawText asr_result
          let dur : ℚ := match env.audioDuration p with
            | some d => d
            | none => 0
          let total' : ℚ := match env.audioDuration p with
            | some d => s.total_audio_duration + d
            | none => s.total_audio_duration
          let count' := s.transcription_count + 1
          let s' := { s with transcription_count := count', total_audio_duration := total' }
          match FunASRServer.confidenceExpr asr_result with
          | Except.error e =>
            -- IndexError inside the result-dict literal, caught by the
            -- blanket except: the counters stay incremented
            (s', transcriptionError ("音频转录失败: " ++ exnMsg e), ev2)
          | Except.ok conf =>
            let ev3 := ev2 ++ (if count' % 10 = 0 then [Event.cleanupPass] else [])
            (s', [("success", JVal.b true),
                  ("text", JVal.s raw_text),
                  ("confidence", JVal.q conf),
                  ("duration", JVal.q dur),
                  ("language", JVal.s "zh-CN"),
                  ("model_type", JVal.s "pytorch")], ev3)

/-- FunASRServer.transcribe_audio: lazily initialize when needed,
return the initialization failure verbatim if it fails, otherwise run
the transcription body. -/
def FunASRServer.transcribe_audio (env : FunEnv) (s : FunState)
    (audio_path : Option String) (options : TranscribeOptions) :
    FunState × Response × List Event :=
  if s.initialized then
    FunASRServer.transcribeBody env s audio_path options []
  else
    match FunASRServer.initModels env s with
    | (s1, initResp, ev) =>
      if isSuccess initResp then
        FunASRServer.transcribeBody env s1 audio_path options ev
      else
        (s1, initResp, ev)

/-- FunASRServer.get_performance_stats. -/
def FunASRServer.get_performance_stats (s : FunState) : Response :=
  [("transcription_count", JVal.q (s.transcription_count : ℚ)),
   ("total_audio_duration", JVal.q (pyRound2 s.total_audio_duration)),
   ("average_duration",
    JVal.q (pyRound2 (s.total_audio_duration / ((max 1 s.transcription_count : ℕ) : ℚ)))),
   ("initialized", JVal.b s.initialized),
   ("models_loaded", JVal.obj [("asr", JVal.b s.asrLoaded), ("vad", JVal.b s.vadLoaded)])]

/-- The try block of FunASRServer.check_status: import funasr (the only
statement in the block that can raise, and it raises ImportError), then
build the status report. -/
def FunASRServer.check_status_try (env : FunEnv) (s : FunState) : Except PyExn Response :=
  match env.funasrVersion with
  | none => Except.error (PyExn.importError "No module named funasr")
  | some v =>
    Except.ok [("success", JVal.b true), ("installed", JVal.b true),
               ("initialized", JVal.b s.initialized), ("version", JVal.s v),
               ("models", JVal.obj [("asr", JVal.b s.asrLoaded), ("vad", JVal.b s.vadLoaded)])]

/-- FunASRServer.check_status: the try block guarded by an except clause
that catches only ImportError; any other exception would escape to the
caller (the theorem below shows none can). -/
def FunASRServer.check_status (env : FunEnv) (s : FunState) : Except PyExn Response :=
  match FunASRServer.check_status_try env s with
  | Except.ok r => Except.ok r
  | Except.error (PyExn.importError _) =>
    Except.ok [("success", JVal.b false), ("installed", JVal.b false),
               ("initialized", JVal.b false), ("error", JVal.s "FunASR未安装")]
  | Except.error e => Except.error e

/-- The value FunASRServer.check_status actually returns (its total
behaviour, with the ImportError branch folded in). -/
def FunASRServer.check_status_pure (env : FunEnv) (s : FunState) : Response :=
  match env.funasrVersion with
  | none =>
    [("success", JVal.b false), ("installed", JVal.b false),
     ("initialized", JVal.b false), ("error", JVal.s "FunASR未安装")]
  | some v =>
    [("success", JVal.b true), ("installed", JVal.b true),
     ("initialized", JVal.b s.initialized), ("version", JVal.s v),
     ("models", JVal.obj [("asr", JVal.b s.asrLoaded), ("vad", JVal.b s.vadLoaded)])]

/-- Response printed by the run loop's blanket except clause when a
handler lets an exception escape (never reached by these handlers). -/
def loopErrorResponse (e : PyExn) : Response :=
  [("success", JVal.b false), ("error", JVal.s (exnMsg e)), ("traceback", JVal.s "traceback")]

/-- Status response as observed on the wire: check_status composed with
the loop-level catch (which is unreachable here since check_status
never propagates an exception). -/
def FunASRServer.statusResponse (env : FunEnv) (s : FunState) : Response :=
  match FunASRServer.check_status env s with
  | Except.ok r => r
  | Except.error e => loopErrorResponse e

/-- The if/elif action dispatch chain of FunASRServer.run. The Bool
result records the break statement of the exit branch. -/
def FunASRServer.handleCommand (env : FunEnv) (s : FunState) (c : Command) :
    FunState × Response × Bool :=
  if c.action = some "transcribe" then
    match FunASRServer.transcribe_audio env s c.audio_path c.options with
    | (s', r, _) => (s', r, false)
  else if c.action = some "status" then
    (s, FunASRServer.statusResponse env s, false)
  else if c.action = some "stats" then
    (s, [("success", JVal.b true), ("stats", JVal.obj (FunASRServer.get_performance_stats s))], false)
  else if c.action = some "cleanup" then
    (s, [("success", JVal.b true), ("message", JVal.s "内存清理完成")], false)
  else if c.action = some "exit" then
    (s, [("success", JVal.b true), ("message", JVal.s "服务器退出")], true)
  else
    (s, [("success", JVal.b false),
         ("error", JVal.s ("未知命令: " ++ pyShow c.action))], false)

/-- Startup phase of FunASRServer.run: probe the model cache directories
and either initialize eagerly or emit the models_not_downloaded
failure. -/
def FunASRServer.startup (env : FunEnv) (s : FunState) : FunState × Response × List Event :=
  if env.modelsPresent then
    FunASRServer.initModels env s
  else
    (s, [("success", JVal.b false), ("error", JVal.s "模型文件未下载，请先下载模型"),
         ("type", JVal.s "models_not_downloaded")], [])

/-- FunASRServer.run on a fresh server object: the startup outcome is
the first output line, then the read loop runs over the input lines. -/
def FunASRServer.runServer (env : FunEnv) (lines : List RawLine) : LoopOut FunState :=
  match FunASRServer.startup env funasrStart with
  | (s1, initResp, _) =>
    let out := runLoop (FunASRServer.handleCommand env) "无效的JSON命令" s1 lines
    { state := out.state, outputs := initResp :: out.outputs, stopped := out.stopped }

/-! ## FireRedASR server (firered_asr_server.py) -/

/-- Oracle for the FireRedASR server's external world: the fireredasr
package import, the main model load, the optional punctuation model
load, the librosa import inside transcribe, file existence, the
duration probe (which raises on failure here, failing the request),
the model invocation (normalized to the extracted transcript string),
and punctuation restoration (ok none models a result shape without a
text, which leaves the raw text in place). -/
structure FireEnv where
  fireredImportOk : Bool
  fireredLoadOk : Bool
  puncLoadOk : Bool
  librosaOk : Bool
  fileExists : String → Bool
  audioDuration : String → Except String ℚ
  asrTranscribe : String → Except String String
  puncRestore : String → Except String (Option String)
  device : String
  model_type : String
  torchOk : Bool
  cudaAvailable : Except PyExn Bool
  gpuName : Except PyExn String
  gpuMemTotal : Except PyExn ℚ
  gpuMemUsed : Except PyExn ℚ
  model_dir : String

/-- Mutable state of the FireRedASRServer object. -/
structure FireState where
  modelLoaded : Bool
  puncLoaded : Bool
  initialized : Bool
  transcription_count : ℕ
  total_audio_duration : ℚ
deriving DecidableEq, Repr

/-- State of a freshly constructed FireRedASRServer. -/
def fireredStart : FireState :=
  { modelLoaded := false, puncLoaded := false, initialized := false
    transcription_count := 0, total_audio_duration := 0 }

/-- FireRedASRServer.initialize: idempotent once initialized; the main
model import/load failures fail the pass, but the punctuation model
load failure is caught locally (punc_model is left None and the pass
still succeeds: the optional component degrades silently). -/
def FireRedASRServer.initModels (env : FireEnv) (s : FireState) :
    FireState × Response × List Event :=
  if s.initialized then
    (s, [("success", JVal.b true), ("message", JVal.s "模型已初始化")], [])
  else if env.fireredImportOk = false then
    (s, [("success", JVal.b false),
         ("error", JVal.s "缺少依赖: fireredasr，请确保 FireRedASR 已正确安装"),
         ("type", JVal.s "import_error")], [Event.initAttempt])
  else if env.fireredLoadOk = false then
    (s, [("success", JVal.b false), ("error", JVal.s "FireRedASR 模型初始化失败"),
         ("type", JVal.s "init_error")], [Event.initAttempt])
  else
    ({ s with modelLoaded := true, puncLoaded := env.puncLoadOk, initialized := true },
     [("success", JVal.b true), ("message", JVal.s "FireRedASR 模型初始化成功"),
      ("device", JVal.s env.device), ("model_type", JVal.s env.model_type)],
     [Event.initAttempt])

/-- The try block of FireRedASRServer.transcribe_audio: import librosa,
existence check, duration probe (a raise here fails the request),
model invocation, punctuation restoration with a local catch that
falls back to the raw text, counter updates and the success response.
The transcript-shape normalization is abstracted into asrTranscribe. -/
def FireRedASRServer.transcribeBody (env : FireEnv) (s : FireState)
    (audio_path : Option String) (ev0 : List Event) :
    FireState × Response × List Event :=
  if env.librosaOk = false then
    (s, transcriptionError "音频转录失败: No module named librosa", ev0)
  else
    match audio_path with
    | none =>
      (s, transcriptionError "音频转录失败: TypeError", ev0)
    | some p =>
      if env.fileExists p = false then
        (s, [("success", JVal.b false), ("error", JVal.s ("音频文件不存在: " ++ p))], ev0)
      else
        match env.audioDuration p with
        | Except.error e => (s, transcriptionError ("音频转录失败: " ++ e), ev0)
        | Except.ok duration =>
          let ev1 := ev0 ++ [Event.asrInvoke]
          match env.asrTranscribe p with
          | Except.error e => (s, transcriptionError ("音频转录失败: " ++ e), ev1)
          | Except.ok transcript =>
            let raw_text := pyStrip transcript
            let puncActive : Bool := s.puncLoaded && !(raw_text = "")
            let ev2 := ev1 ++ (if puncActive then [Event.puncInvoke] else [])
            let final_text :=
              if puncActive then
                match env.puncRestore raw_text with
                | Except.ok (some t) => t
                | Except.ok none => raw_text
                | Except.error _ => raw_text
              else raw_text
            let count' := s.transcription_count + 1
            let total' := s.total_audio_duration + duration
            let s' := { s with transcription_count := count', total_audio_duration := total' }
            let ev3 := ev2 ++ (if count' % 10 = 0 then [Event.cleanupPass] else [])
            (s', [("success", JVal.b true),
                  ("text", JVal.s final_text),
                  ("raw_text", JVal.s raw_text),
                  ("duration", JVal.q duration),
                  ("language", JVal.s "auto"),
                  ("model_type", JVal.s ("firered-asr-" ++ env.model_type))], ev3)

/-- FireRedASRServer.transcribe_audio with its lazy-initialization
gate. -/
def FireRedASRServer.transcribe_audio (env : FireEnv) (s : FireState)
    (audio_path : Option String) (_options : TranscribeOptions) :
    FireState × Response × List Event :=
  if s.initialized then
    FireRedASRServer.transcribeBody env s audio_path []
  else
    match FireRedASRServer.initModels env s with
    | (s1, initResp, ev) =>
      if isSuccess initResp then
        FireRedASRServer.transcribeBody env s1 audio_path ev
      else
        (s1, initResp, ev)

/-- FireRedASRServer.get_performance_stats. -/
def FireRedASRServer.get_performance_stats (env : FireEnv) (s : FireState) : Response :=
  [("transcription_count", JVal.q (s.transcription_count : ℚ)),
   ("total_audio_duration", JVal.q (pyRound2 s.total_audio_duration)),
   ("average_duration",
    JVal.q (pyRound2 (s.total_audio_duration / ((max 1 s.transcription_count : ℕ) : ℚ)))),
   ("initialized", JVal.b s.initialized),
   ("device", JVal.s env.device),
   ("model_type", JVal.s env.model_type)]

/-- The try block of FireRedASRServer.check_status: import torch, query
accelerator availability and, when available, device name and memory
figures (memory in use only once initialized). The f-string formatting
of the memory figures is abstracted to their numeric values. -/
def FireRedASRServer.check_status_try (env : FireEnv) (s : FireState) :
    Except PyExn Response :=
  if env.torchOk = false then
    Except.error (PyExn.importError "No module named torch")
  else
    match env.cudaAvailable with
    | Except.error e => Except.error e
    | Except.ok cuda =>
      let base : Response :=
        [("success", JVal.b true), ("initialized", JVal.b s.initialized),
         ("model_dir", JVal.s env.model_dir), ("model_type", JVal.s env.model_type),
         ("device", JVal.s env.device), ("cuda_available", JVal.b cuda)]
      if cuda then
        match env.gpuName with
        | Except.error e => Except.error e
        | Except.ok n =>
          match env.gpuMemTotal with
          | Except.error e => Except.error e
          | Except.ok m =>
            if s.initialized then
              match env.gpuMemUsed with
              | Except.error e => Except.error e
              | Except.ok u =>
                Except.ok (base ++ [("gpu_name", JVal.s n), ("gpu_memory_total", JVal.q m),
                                    ("gpu_memory_used", JVal.q u)])
            else
              Except.ok (base ++ [("gpu_name", JVal.s n), ("gpu_memory_total", JVal.q m)])
      else
        Except.ok base

/-- FireRedASRServer.check_status: the try block guarded by a blanket
except clause that downgrades any exception to a partial report. -/
def FireRedASRServer.check_status (env : FireEnv) (s : FireState) : Except PyExn Response :=
  match FireRedASRServer.check_status_try env s with
  | Except.ok r => Except.ok r
  | Except.error e =>
    Except.ok [("success", JVal.b false), ("error", JVal.s (exnMsg e)),
               ("initialized", JVal.b s.initialized)]

/-- Status response as observed on the wire. -/
def FireRedASRServer.statusResponse (env : FireEnv) (s : FireState) : Response :=
  match FireRedASRServer.check_status env s with
  | Except.ok r => r
  | Except.error e => loopErrorResponse e

/-- The if/elif action dispatch chain of FireRedASRServer.run. -/
def FireRedASRServer.handleCommand (env : FireEnv) (s : FireState) (c : Command) :
    FireState × Response × Bool :=
  if c.action = some "transcribe" then
    match FireRedASRServer.transcribe_audio env s c.audio_path c.options with
    | (s', r, _) => (s', r, false)
  else if c.action = some "status" then
    (s, FireRedASRServer.statusResponse env s, false)
  else if c.action = some "stats" then
    (s, [("success", JVal.b true),
         ("stats", JVal.obj (FireRedASRServer.get_performance_stats env s))], false)
  else if c.action = some "cleanup" then
    (s, [("success", JVal.b true), ("message", JVal.s "内存清理完成")], false)
  else if c.action = some "exit" then
    (s, [("success", JVal.b true), ("message", JVal.s "服务器退出")], true)
  else
    (s, [("success", JVal.b false),
         ("error", JVal.s ("未知命令: " ++ pyShow c.action))], false)

/-- FireRedASRServer.run on a fresh server object: eager initialization
is the first output line, then the read loop. -/
def FireRedASRServer.runServer (env : FireEnv) (lines : List RawLine) : LoopOut FireState :=
  match FireRedASRServer.initModels env fireredStart with
  | (s1, initResp, _) =>
    let out := runLoop (FireRedASRServer.handleCommand env) "无效的 JSON 命令" s1 lines
    { state := out.state, outputs := initResp :: out.outputs, stopped := out.stopped }

/-! ## GLM-ASR server (glm_asr_server.py) -/

/-- Oracle for the GLM-ASR server's external world: the
torch/torchaudio/transformers imports, the tokenizer-and-model load,
the torch import inside transcribe, file existence, prompt building
(which loads and resamples the audio, returning its duration in
seconds, and raises on failure, e.g. for empty audio), the generate
plus decode step (normalized to the decoded transcript), and the
status introspection operations. -/
structure GLMEnv where
  transformersOk : Bool
  modelLoadOk : Bool
  torchOk : Bool
  fileExists : String → Bool
  buildPrompt : String → Except String ℚ
  generateDecode : String → Except String String
  device : String
  model_path : String
  cudaAvailable : Except PyExn Bool
  gpuName : Except PyExn String
  gpuMemTotal : Except PyExn ℚ
  gpuMemUsed : Except PyExn ℚ

/-- Mutable state of the GLMASRServer object. -/
structure GLMState where
  modelLoaded : Bool
  initialized : Bool
  transcription_count : ℕ
  total_audio_duration : ℚ
deriving DecidableEq, Repr

/-- State of a freshly constructed GLMASRServer. -/
def glmStart : GLMState :=
  { modelLoaded := false, initialized := false
    transcription_count := 0, total_audio_duration := 0 }

/-- GLMASRServer.initialize: idempotent once initialized; import
failures and load failures are reported with their error kinds. -/
def GLMASRServer.initModels (env : GLMEnv) (s : GLMState) :
    GLMState × Response × List Event :=
  if s.initialized then
    (s, [("success", JVal.b true), ("message", JVal.s "模型已初始化")], [])
  else if env.transformersOk = false then
    (s, [("success", JVal.b false),
         ("error", JVal.s "缺少依赖，请安装: pip install torch torchaudio transformers"),
         ("type", JVal.s "import_error")], [Event.initAttempt])
  else if env.modelLoadOk = false then
    (s, [("success", JVal.b false), ("error", JVal.s "GLM-ASR 模型初始化失败"),
         ("type", JVal.s "init_error")], [Event.initAttempt])
  else
    ({ s with modelLoaded := true, initialized := true },
     [("success", JVal.b true), ("message", JVal.s "GLM-ASR 模型初始化成功"),
      ("device", JVal.s env.device)], [Event.initAttempt])

/-- The try block of GLMASRServer.transcribe_audio: import torch,
existence check, prompt building (yielding the duration), generation
and decoding, counter updates and the success response. text and
raw_text are the same decoded transcript here. -/
def GLMASRServer.transcribeBody (env : GLMEnv) (s : GLMState)
    (audio_path : Option String) (ev0 : List Event) :
    GLMState × Response × List Event :=
  if env.torchOk = false then
    (s, transcriptionError "音频转录失败: No module named torch", ev0)
  else
    match audio_path with
    | none =>
      (s, transcriptionError "音频转录失败: TypeError", ev0)
    | some p =>
      if env.fileExists p = false then
        (s, [("success", JVal.b false), ("error", JVal.s ("音频文件不存在: " ++ p))], ev0)
      else
        match env.buildPrompt p with
        | Except.error e => (s, transcriptionError ("音频转录失败: " ++ e), ev0)
        | Except.ok duration =>
          let ev1 := ev0 ++ [Event.asrInvoke]
          match env.generateDecode p with
          | Except.error e => (s, transcriptionError ("音频转录失败: " ++ e), ev1)
          | Except.ok decoded =>
            let transcript := pyStrip decoded
            let count' := s.transcription_count + 1
            let total' := s.total_audio_duration + duration
            let s' := { s with transcription_count := count', total_audio_duration := total' }
            let ev2 := ev1 ++ (if count' % 10 = 0 then [Event.cleanupPass] else [])
            (s', [("success", JVal.b true),
                  ("text", JVal.s transcript),
                  ("raw_text", JVal.s transcript),
                  ("duration", JVal.q duration),
                  ("language", JVal.s "auto"),
                  ("model_type", JVal.s "glm-asr-nano")], ev2)

/-- GLMASRServer.transcribe_audio with its lazy-initialization gate. -/
def GLMASRServer.transcribe_audio (env : GLMEnv) (s : GLMState)
    (audio_path : Option String) (_options : TranscribeOptions) :
    GLMState × Response × List Event :=
  if s.initialized then
    GLMASRServer.transcribeBody env s audio_path []
  else
    match GLMASRServer.initModels env s with
    | (s1, initResp, ev) =>
      if isSuccess initResp then
        GLMASRServer.transcribeBody env s1 audio_path ev
      else
        (s1, initResp, ev)

/-- GLMASRServer.get_performance_stats. -/
def GLMASRServer.get_performance_stats (env : GLMEnv) (s : GLMState) : Response :=
  [("transcription_count", JVal.q (s.transcription_count : ℚ)),
   ("total_audio_duration", JVal.q (pyRound2 s.total_audio_duration)),
   ("average_duration",
    JVal.q (pyRound2 (s.total_audio_duration / ((max 1 s.transcription_count : ℕ) : ℚ)))),
   ("initialized", JVal.b s.initialized),
   ("device", JVal.s env.device)]

/-- The try block of GLMASRServer.check_status. -/
def GLMASRServer.check_status_try (env : GLMEnv) (s : GLMState) :
    Except PyExn Response :=
  if env.torchOk = false then
    Except.error (PyExn.importError "No module named torch")
  else
    match env.cudaAvailable with
    | Except.error e => Except.error e
    | Except.ok cuda =>
      let base : Response :=
        [("success", JVal.b true), ("initialized", JVal.b s.initialized),
         ("model_path", JVal.s env.model_path),
         ("device", JVal.s env.device), ("cuda_available", JVal.b cuda)]
      if cuda then
        match env.gpuName with
        | Except.error e => Except.error e
        | Except.ok n =>
          match env.gpuMemTotal with
          | Except.error e => Except.error e
          | Except.ok m =>
            if s.initialized then
              match env.gpuMemUsed with
              | Except.error e => Except.error e
              | Except.ok u =>
                Except.ok (base ++ [("gpu_name", JVal.s n), ("gpu_memory_total", JVal.q m),
                                    ("gpu_memory_used", JVal.q u)])
            else
              Except.ok (base ++ [("gpu_name", JVal.s n), ("gpu_memory_total", JVal.q m)])
      else
        Except.ok base

/-- GLMASRServer.check_status: the try block guarded by a blanket
except clause that downgrades any exception to a partial report
carrying the error message and the initialized flag. -/
def GLMASRServer.check_status (env : GLMEnv) (s : GLMState) : Except PyExn Response :=
  match GLMASRServer.check_status_try env s with
  | Except.ok r => Except.ok r
  | Except.error e =>
    Except.ok [("success", JVal.b false), ("error", JVal.s (exnMsg e)),
               ("initialized", JVal.b s.initialized)]

/-- The value GLMASRServer.check_status actually returns. -/
def GLMASRServer.check_status_pure (env : GLMEnv) (s : GLMState) : Response :=
  match GLMASRServer.check_status_try env s with
  | Except.ok r => r
  | Except.error e =>
    [("success", JVal.b false), ("error", JVal.s (exnMsg e)),
     ("initialized", JVal.b s.initialized)]

/-- Status response as observed on the wire. -/
def GLMASRServer.statusResponse (env : GLMEnv) (s : GLMState) : Response :=
  match GLMASRServer.check_status env s with
  | Except.ok r => r
  | Except.error e => loopErrorResponse e

/-- The if/elif action dispatch chain of GLMASRServer.run. -/
def GLMASRServer.handleCommand (env : GLMEnv) (s : GLMState) (c : Command) :
    GLMState × Response × Bool :=
  if c.action = some "transcribe" then
    match GLMASRServer.transcribe_audio env s c.audio_path c.options with
    | (s', r, _) => (s', r, false)
  else if c.action = some "status" then
    (s, GLMASRServer.statusResponse env s, false)
  else if c.action = some "stats" then
    (s, [("success", JVal.b true),
         ("stats", JVal.obj (GLMASRServer.get_performance_stats env s))], false)
  else if c.action = some "cleanup" then
    (s, [("success", JVal.b true), ("message", JVal.s "内存清理完成")], false)
  else if c.action = some "exit" then
    (s, [("success", JVal.b true), ("message", JVal.s "服务器退出")], true)
  else
    (s, [("success", JVal.b false),
         ("error", JVal.s ("未知命令: " ++ pyShow c.action))], false)

/-- GLMASRServer.run on a fresh server object. -/
def GLMASRServer.runServer (env : GLMEnv) (lines : List RawLine) : LoopOut GLMState :=
  match GLMASRServer.initModels env glmStart with
  | (s1, initResp, _) =>
    let out := runLoop (GLMASRServer.handleCommand env) "无效的 JSON 命令" s1 lines
    { state := out.state, outputs := initResp :: out.outputs, stopped := out.stopped }

/-! ## Fixtures and derived observations -/

/-- Example FunASR oracle in which every external operation succeeds. -/
def funEnvOk : FunEnv :=
  { modelsPresent := true, asrLoadOk := true, vadLoadOk := true, loadTimeout := false
    fileExists := fun _ => true
    vadGen := fun _ => Except.ok ()
    asrGen := fun _ => Except.ok (AsrResult.items
      [{ text := some "你好世界", repr := "item0", confidence := none }])
    audioDuration := fun _ => some 3
    funasrVersion := some "1.2.8" }

/-- FunASR oracle whose asr model load fails (every attempt). -/
def funEnvAsrFails : FunEnv := { funEnvOk with asrLoadOk := false }

/-- FunASR oracle in which no audio file exists. -/
def funEnvNoFile : FunEnv := { funEnvOk with fileExists := fun _ => false }

/-- FunASR oracle whose duration probe reports 1 second for path a and
0 seconds elsewhere. -/
def funEnvDur : FunEnv :=
  { funEnvOk with audioDuration := fun p => some (if p = "a" then 1 else 0) }

/-- FunASR oracle whose generate call returns an empty result list:
the corner where the confidence expression raises IndexError after the
counters were advanced. -/
def funEnvEmptyResult : FunEnv :=
  { funEnvOk with asrGen := fun _ => Except.ok (AsrResult.items []) }

/-- A FunASR server state that has reached Ready. -/
def funasrReady : FunState :=
  { asrLoaded := true, vadLoaded := true, initialized := true
    transcription_count := 0, total_audio_duration := 0 }

/-- Example FireRedASR oracle in which every external operation
succeeds. -/
def fireEnvOk : FireEnv :=
  { fireredImportOk := true, fireredLoadOk := true, puncLoadOk := true, librosaOk := true
    fileExists := fun _ => true
    audioDuration := fun _ => Except.ok 3
    asrTranscribe := fun _ => Except.ok "你好世界"
    puncRestore := fun _ => Except.ok (some "你好，世界。")
    device := "cpu", model_type := "aed"
    torchOk := true, cudaAvailable := Except.ok false
    gpuName := Except.ok "gpu0", gpuMemTotal := Except.ok 8, gpuMemUsed := Except.ok 1
    model_dir := "pretrained_models" }

/-- FireRedASR oracle whose punctuation restoration raises. -/
def fireEnvPuncRaises : FireEnv :=
  { fireEnvOk with puncRestore := fun _ => Except.error "punc crashed" }

/-- A FireRedASR server state that reached Ready with the punctuation
model loaded. -/
def fireredReady : FireState :=
  { modelLoaded := true, puncLoaded := true, initialized := true
    transcription_count := 0, total_audio_duration := 0 }

/-- A FireRedASR server state that reached Ready although the optional
punctuation model failed to load. -/
def fireredReadyNoPunc : FireState :=
  { modelLoaded := true, puncLoaded := false, initialized := true
    transcription_count := 0, total_audio_duration := 0 }

/-- Example GLM-ASR oracle in which every external operation succeeds. -/
def glmEnvOk : GLMEnv :=
  { transformersOk := true, modelLoadOk := true, torchOk := true
    fileExists := fun _ => true
    buildPrompt := fun _ => Except.ok 3
    generateDecode := fun _ => Except.ok "你好世界"
    device := "cpu", model_path := "zai-org/GLM-ASR-Nano-2512"
    cudaAvailable := Except.ok false
    gpuName := Except.ok "gpu0", gpuMemTotal := Except.ok 8, gpuMemUsed := Except.ok 1 }

/-- A GLM-ASR server state that has reached Ready. -/
def glmReady : GLMState :=
  { modelLoaded := true, initialized := true
    transcription_count := 0, total_audio_duration := 0 }

/-- A response is a successful transcription response exactly when it
is successful and carries a duration field (of the responses any of the
servers emit, only transcribe success responses carry one). -/
def isSuccTransResp (r : Response) : Bool :=
  isSuccess r && (getField r "duration").isSome

/-- The duration reported by a response (0 when absent). -/
def getDurQ (r : Response) : ℚ :=
  match getField r "duration" with
  | some (JVal.q d) => d
  | _ => 0

/-- Durations of the successful transcription responses in an output
stream, in order. -/
def succDurations (outs : List Response) : List ℚ :=
  (outs.filter isSuccTransResp).map getDurQ

/-- Whether a parsed line decodes to the exit action. -/
def isExitParse : Option Command → Bool
  | some c => c.action == some "exit"
  | none => false

/-- A raw line that neither ends the stream nor decodes to exit: the
read loop keeps reading after it. -/
def keepsReading (l : RawLine) : Bool :=
  (!(l.text == "")) && !(isExitParse l.parsed)

/-- Input line carrying a transcribe command for the given path. -/
def transLine (p : String) : RawLine :=
  { text := "cmd"
    parsed := some { action := some "transcribe", audio_path := some p, options := noOptions } }

/-- Input line carrying the stats command. -/
def statsLine : RawLine :=
  { text := "cmd", parsed := some { action := some "stats", audio_path := none, options := noOptions } }

/-- Input line carrying the exit command. -/
def exitLine : RawLine :=
  { text := "cmd", parsed := some { action := some "exit", audio_path := none, options := noOptions } }

/-- The exit acknowledgment all three servers print before breaking. -/
def exitAck : Response :=
  [("success", JVal.b true), ("message", JVal.s "服务器退出")]

/-- A non-empty line that is not valid JSON. -/
def badLine : RawLine := { text := "not json", parsed := none }

/-- A whitespace-only line. -/
def blankLine : RawLine := { text := "   ", parsed := none }

/-- FireRedASR oracle in which no audio file exists. -/
def fireEnvNoFile : FireEnv := { fireEnvOk with fileExists := fun _ => false }

/-- FunASR oracle in which the funasr package is not importable. -/
def funEnvNoFunasr : FunEnv := { funEnvOk with funasrVersion := none }

/-- GLM-ASR oracle whose accelerator-availability probe raises. -/
def glmEnvCudaRaises : GLMEnv :=
  { glmEnvOk with cudaAvailable := Except.error (PyExn.otherError "cuda probe crashed") }

/-- Whether the GLM status try block runs to completion (true) or
raises into the blanket except clause (false). -/
def GLMASRServer.introspectionOk (env : GLMEnv) (s : GLMState) : Bool :=
  match GLMASRServer.check_status_try env s with
  | Except.ok _ => true
  | Except.error _ => false

/-! ## Helper lemmas -/

/-- A response whose first field is success false is not successful. -/
@[simp] theorem isSuccess_false_head (rest : Response) :
    isSuccess (("success", JVal.b false) :: rest) = false := rfl

/-- A response whose first field is success true is successful. -/
@[simp] theorem isSuccess_true_head (rest : Response) :
    isSuccess (("success", JVal.b true) :: rest) = true := rfl

/-- The blanket-except failure responses are unsuccessful. -/
@[simp] theorem isSuccess_transcriptionError (m : String) :
    isSuccess (transcriptionError m) = false := rfl

/-! ## Claim C1 -/

/-- C1 counterexample: with an oracle whose asr model load always
fails, the first transcribe on a fresh FunASR server fails its
initialization attempt, and the second transcribe performs another
initialization attempt — the failure is recomputed, not served from a
cache, contradicting the claim that after a failed initialization no
further initialization is attempted for the process lifetime. -/
theorem funasr_cached_failure_cex :
    isSuccess (FunASRServer.transcribe_audio funEnvAsrFails funasrStart
        (some "/a") noOptions).2.1 = false ∧
    (FunASRServer.transcribe_audio funEnvAsrFails funasrStart
        (some "/a") noOptions).1.initialized = false ∧
    (FunASRServer.transcribe_audio funEnvAsrFails
        ((FunASRServer.transcribe_audio funEnvAsrFails funasrStart (some "/a") noOptions).1)
        (some "/a") noOptions).2.2 = [Event.initAttempt] :=
  ⟨rfl, rfl, rfl⟩

/-- Under a failing load phase, FunASRServer.initialize reports the
failure, leaves the worker uninitialized and records one fresh
initialization attempt. -/
theorem funasr_initModels_fail (env : FunEnv) (s : FunState)
    (hs : s.initialized = false)
    (hfail : env.loadTimeout = true ∨ env.asrLoadOk = false ∨ env.vadLoadOk = false) :
    (FunASRServer.initModels env s).1.initialized = false ∧
    isSuccess (FunASRServer.initModels env s).2.1 = false ∧
    (FunASRServer.initModels env s).2.2 = [Event.initAttempt] := by
  unfold FunASRServer.initModels
  cases ht : env.loadTimeout
  · have hload : env.asrLoadOk = false ∨ env.vadLoadOk = false := by
      rcases hfail with h | h | h
      · rw [ht] at h; exact absurd h (by simp)
      · exact Or.inl h
      · exact Or.inr h
    cases ha : env.asrLoadOk
    · cases hv : env.vadLoadOk <;> simp [hs, ht, ha, hv]
    · cases hv : env.vadLoadOk
      · simp [hs, ht, ha, hv]
      · rcases hload with h | h
        · rw [ha] at h; exact absurd h (by simp)
        · rw [hv] at h; exact absurd h (by simp)
  · simp [hs, ht]

/-- C1 (amended): the code has no terminal Failed state. When an
initialization attempt fails (timeout or a failed required load), the
worker merely stays uninitialized: every subsequent transcribe command
performs a fresh initialization attempt (whose failure is recomputed
and returned for that command), rather than returning a cached failure
without re-attempting initialization. -/
theorem funasr_failed_init_is_retried (env : FunEnv) (s : FunState)
    (p : Option String) (o : TranscribeOptions)
    (hs : s.initialized = false)
    (hfail : env.loadTimeout = true ∨ env.asrLoadOk = false ∨ env.vadLoadOk = false) :
    (FunASRServer.transcribe_audio env s p o).1.initialized = false ∧
    isSuccess (FunASRServer.transcribe_audio env s p o).2.1 = false ∧
    Event.initAttempt ∈ (FunASRServer.transcribe_audio env s p o).2.2 := by
  obtain ⟨h1, h2, h3⟩ := funasr_initModels_fail env s hs hfail
  unfold FunASRServer.transcribe_audio
  rcases hI : FunASRServer.initModels env s with ⟨s1, initResp, ev⟩
  rw [hI] at h1 h2 h3
  simp only at h1 h2 h3
  simp [hs, h1, h2, h3]

/-- Witness for funasr_failed_init_is_retried at a concrete oracle and
the fresh server state. -/
theorem funasr_failed_init_is_retried_witness :
    (FunASRServer.transcribe_audio funEnvAsrFails funasrStart (some "/a") noOptions).1.initialized = false ∧
    isSuccess (FunASRServer.transcribe_audio funEnvAsrFails funasrStart (some "/a") noOptions).2.1 = false ∧
    Event.initAttempt ∈ (FunASRServer.transcribe_audio funEnvAsrFails funasrStart (some "/a") noOptions).2.2 :=
  funasr_failed_init_is_retried funEnvAsrFails funasrStart (some "/a") noOptions rfl
    (Or.inr (Or.inl rfl))

/-! ## Claim C2 -/

/-- C2 counterexample: on a fresh (uninitialized) FunASR server whose
model files load fine but whose request names a non-existent audio
path, the transcribe command still performs an initialization attempt
(the lazy-initialization gate precedes the existence check), and the
failure response carries no machine-readable errorKind field (no type
key). -/
theorem missing_audio_cex :
    (FunASRServer.transcribe_audio funEnvNoFile funasrStart (some "/missing") noOptions).2.2 =
      [Event.initAttempt] ∧
    isSuccess (FunASRServer.transcribe_audio funEnvNoFile funasrStart (some "/missing") noOptions).2.1 = false ∧
    getField (FunASRServer.transcribe_audio funEnvNoFile funasrStart (some "/missing") noOptions).2.1 "type" = none ∧
    getField (FunASRServer.transcribe_audio funEnvNoFile funasrStart (some "/missing") noOptions).2.1 "errorKind" = none :=
  ⟨rfl, rfl, rfl, rfl⟩

/-- C2 (amended): on an already-initialized worker, a transcribe whose
audio_path does not exist returns success false with only a
human-readable error message (no machine-readable errorKind field),
does not change any state (in particular the request counter), and
performs no model invocation and no initialization attempt (empty
event trace). On an uninitialized worker, however, the
lazy-initialization gate runs before the existence check, so a model
load is attempted first (see the counterexample). -/
theorem missing_audio_rejected :
    (∀ (env : FunEnv) (s : FunState) (p : String) (o : TranscribeOptions),
      s.initialized = true → env.fileExists p = false →
      FunASRServer.transcribe_audio env s (some p) o =
        (s, [("success", JVal.b false), ("error", JVal.s ("音频文件不存在: " ++ p))], [])) ∧
    (∀ (env : FireEnv) (s : FireState) (p : String) (o : TranscribeOptions),
      s.initialized = true → env.librosaOk = true → env.fileExists p = false →
      FireRedASRServer.transcribe_audio env s (some p) o =
        (s, [("success", JVal.b false), ("error", JVal.s ("音频文件不存在: " ++ p))], [])) := by
  constructor
  · intro env s p o hs hf
    unfold FunASRServer.transcribe_audio FunASRServer.transcribeBody
    simp [hs, hf]
  · intro env s p o hs hl hf
    unfold FireRedASRServer.transcribe_audio FireRedASRServer.transcribeBody
    simp [hs, hl, hf]

/-- Witness for missing_audio_rejected on both servers at concrete
ready states and a missing path. -/
theorem missing_audio_rejected_witness :
    FunASRServer.transcribe_audio funEnvNoFile funasrReady (some "/missing") noOptions =
      (funasrReady, [("success", JVal.b false),
                     ("error", JVal.s ("音频文件不存在: " ++ "/missing"))], []) ∧
    FireRedASRServer.transcribe_audio fireEnvNoFile fireredReady (some "/missing") noOptions =
      (fireredReady, [("success", JVal.b false),
                      ("error", JVal.s ("音频文件不存在: " ++ "/missing"))], []) :=
  ⟨missing_audio_rejected.1 funEnvNoFile funasrReady "/missing" noOptions rfl rfl,
   missing_audio_rejected.2 fireEnvNoFile fireredReady "/missing" noOptions rfl rfl rfl⟩

/-- An unsuccessful response is not a successful transcription
response. -/
@[simp] theorem isSuccTransResp_false_head (rest : Response) :
    isSuccTransResp (("success", JVal.b false) :: rest) = false := by
  simp [isSuccTransResp]

/-- The blanket-except failure responses are not successful
transcription responses. -/
@[simp] theorem isSuccTransResp_transcriptionError (m : String) :
    isSuccTransResp (transcriptionError m) = false := rfl

/-- FunASRServer.initialize never touches the counters. -/
theorem funasr_initModels_preserves (env : FunEnv) (s : FunState) :
    (FunASRServer.initModels env s).1.transcription_count = s.transcription_count ∧
    (FunASRServer.initModels env s).1.total_audio_duration = s.total_audio_duration := by
  unfold FunASRServer.initModels
  split
  · simp
  · split
    · simp
    · cases ha : env.asrLoadOk <;> cases hv : env.vadLoadOk <;> simp [ha, hv]

/-- Counter bookkeeping of the funasr transcription body, under an
oracle whose generate call never returns an empty result list (so the
confidence expression cannot raise): success of the response coincides
with it being a successful transcription response, the request counter
advances by one exactly on success, and the cumulative duration
advances by exactly the duration reported in the response. -/
theorem funasr_body_stats (env : FunEnv) (hne : env.noEmptyAsrResult)
    (s : FunState) (p : Option String)
    (o : TranscribeOptions) (ev0 : List Event) :
    isSuccess (FunASRServer.transcribeBody env s p o ev0).2.1 =
      isSuccTransResp (FunASRServer.transcribeBody env s p o ev0).2.1 ∧
    (FunASRServer.transcribeBody env s p o ev0).1.transcription_count =
      s.transcription_count +
        (if isSuccTransResp (FunASRServer.transcribeBody env s p o ev0).2.1 then 1 else 0) ∧
    (FunASRServer.transcribeBody env s p o ev0).1.total_audio_duration =
      s.total_audio_duration +
        (if isSuccTransResp (FunASRServer.transcribeBody env s p o ev0).2.1
         then getDurQ (FunASRServer.transcribeBody env s p o ev0).2.1 else 0) := by
  cases p with
  | none => simp [FunASRServer.transcribeBody]
  | some p =>
    simp only [FunASRServer.transcribeBody]
    split
    · simp
    · rcases hv : (if o.use_vad.getD true = true then env.vadGen p else Except.ok ()) with e | u
      · simp
      · rcases ha : env.asrGen p with e | res
        · simp
        · rcases res with xs | r
          · rcases xs with _ | ⟨x, rest⟩
            · exact absurd ha (hne p)
            · rcases hD : env.audioDuration p with _ | d <;>
                simp [hD, FunASRServer.confidenceExpr, FunASRServer.extractRawText,
                      isSuccTransResp, isSuccess, getField, getDurQ]
          · rcases hD : env.audioDuration p with _ | d <;>
              simp [hD, FunASRServer.confidenceExpr, FunASRServer.extractRawText,
                    isSuccTransResp, isSuccess, getField, getDurQ]

/-- Counter bookkeeping of FunASRServer.transcribe_audio, including the
lazy-initialization gate, under a no-empty-result oracle. -/
theorem funasr_transcribe_stats (env : FunEnv) (hne : env.noEmptyAsrResult)
    (s : FunState) (p : Option String)
    (o : TranscribeOptions) :
    isSuccess (FunASRServer.transcribe_audio env s p o).2.1 =
      isSuccTransResp (FunASRServer.transcribe_audio env s p o).2.1 ∧
    (FunASRServer.transcribe_audio env s p o).1.transcription_count =
      s.transcription_count +
        (if isSuccTransResp (FunASRServer.transcribe_audio env s p o).2.1 then 1 else 0) ∧
    (FunASRServer.transcribe_audio env s p o).1.total_audio_duration =
      s.total_audio_duration +
        (if isSuccTransResp (FunASRServer.transcribe_audio env s p o).2.1
         then getDurQ (FunASRServer.transcribe_audio env s p o).2.1 else 0) := by
  unfold FunASRServer.transcribe_audio
  split
  · exact funasr_body_stats env hne s p o []
  · rcases hI : FunASRServer.initModels env s with ⟨s1, r1, ev⟩
    have hpres := funasr_initModels_preserves env s
    rw [hI] at hpres
    simp only at hpres
    dsimp only
    split
    · have hb := funasr_body_stats env hne s1 p o ev
      exact ⟨hb.1, by rw [hb.2.1, hpres.1], by rw [hb.2.2, hpres.2]⟩
    · rename_i hns
      have hfalse : isSuccess r1 = false := by
        revert hns
        cases isSuccess r1 <;> simp
      have hst : isSuccTransResp r1 = false := by
        simp [isSuccTransResp, hfalse]
      simp [hfalse, hst, hpres.1, hpres.2]

/-- A response without a duration field is not a successful
transcription response. -/
theorem isSuccTransResp_of_noDur (r : Response) (h : getField r "duration" = none) :
    isSuccTransResp r = false := by
  simp [isSuccTransResp, h]

/-- FireRedASRServer.initialize never touches the counters. -/
theorem firered_initModels_preserves (env : FireEnv) (s : FireState) :
    (FireRedASRServer.initModels env s).1.transcription_count = s.transcription_count ∧
    (FireRedASRServer.initModels env s).1.total_audio_duration = s.total_audio_duration := by
  unfold FireRedASRServer.initModels
  split
  · simp
  · split
    · simp
    · split <;> simp

/-- GLMASRServer.initialize never touches the counters. -/
theorem glm_initModels_preserves (env : GLMEnv) (s : GLMState) :
    (GLMASRServer.initModels env s).1.transcription_count = s.transcription_count ∧
    (GLMASRServer.initModels env s).1.total_audio_duration = s.total_audio_duration := by
  unfold GLMASRServer.initModels
  split
  · simp
  · split
    · simp
    · split <;> simp

/-- Counter bookkeeping of the FireRedASR transcription body. -/
theorem firered_body_stats (env : FireEnv) (s : FireState) (p : Option String)
    (ev0 : List Event) :
    isSuccess (FireRedASRServer.transcribeBody env s p ev0).2.1 =
      isSuccTransResp (FireRedASRServer.transcribeBody env s p ev0).2.1 ∧
    (FireRedASRServer.transcribeBody env s p ev0).1.transcription_count =
      s.transcription_count +
        (if isSuccTransResp (FireRedASRServer.transcribeBody env s p ev0).2.1 then 1 else 0) ∧
    (FireRedASRServer.transcribeBody env s p ev0).1.total_audio_duration =
      s.total_audio_duration +
        (if isSuccTransResp (FireRedASRServer.transcribeBody env s p ev0).2.1
         then getDurQ (FireRedASRServer.transcribeBody env s p ev0).2.1 else 0) := by
  by_cases hl : env.librosaOk = false
  · simp [FireRedASRServer.transcribeBody, hl]
  · cases p with
    | none => simp [FireRedASRServer.transcribeBody, hl]
    | some p =>
      simp only [FireRedASRServer.transcribeBody, if_neg hl]
      split
      · simp
      · rcases hd : env.audioDuration p with e | d
        · simp [hd]
        · rcases ha : env.asrTranscribe p with e | t
          · simp [hd, ha]
          · simp [hd, ha, isSuccTransResp, isSuccess, getField, getDurQ]

/-- Counter bookkeeping of the GLM-ASR transcription body. -/
theorem glm_body_stats (env : GLMEnv) (s : GLMState) (p : Option String)
    (ev0 : List Event) :
    isSuccess (GLMASRServer.transcribeBody env s p ev0).2.1 =
      isSuccTransResp (GLMASRServer.transcribeBody env s p ev0).2.1 ∧
    (GLMASRServer.transcribeBody env s p ev0).1.transcription_count =
      s.transcription_count +
        (if isSuccTransResp (GLMASRServer.transcribeBody env s p ev0).2.1 then 1 else 0) ∧
    (GLMASRServer.transcribeBody env s p ev0).1.total_audio_duration =
      s.total_audio_duration +
        (if isSuccTransResp (GLMASRServer.transcribeBody env s p ev0).2.1
         then getDurQ (GLMASRServer.transcribeBody env s p ev0).2.1 else 0) := by
  by_cases ht : env.torchOk = false
  · simp [GLMASRServer.transcribeBody, ht]
  · cases p with
    | none => simp [GLMASRServer.transcribeBody, ht]
    | some p =>
      simp only [GLMASRServer.transcribeBody, if_neg ht]
      split
      · simp
      · rcases hb : env.buildPrompt p with e | d
        · simp [hb]
        · rcases hg : env.generateDecode p with e | t
          · simp [hb, hg]
          · simp [hb, hg, isSuccTransResp, isSuccess, getField, getDurQ]

/-- Counter bookkeeping of FireRedASRServer.transcribe_audio. -/
theorem firered_transcribe_stats (env : FireEnv) (s : FireState) (p : Option String)
    (o : TranscribeOptions) :
    isSuccess (FireRedASRServer.transcribe_audio env s p o).2.1 =
      isSuccTransResp (FireRedASRServer.transcribe_audio env s p o).2.1 ∧
    (FireRedASRServer.transcribe_audio env s p o).1.transcription_count =
      s.transcription_count +
        (if isSuccTransResp (FireRedASRServer.transcribe_audio env s p o).2.1 then 1 else 0) ∧
    (FireRedASRServer.transcribe_audio env s p o).1.total_audio_duration =
      s.total_audio_duration +
        (if isSuccTransResp (FireRedASRServer.transcribe_audio env s p o).2.1
         then getDurQ (FireRedASRServer.transcribe_audio env s p o).2.1 else 0) := by
  unfold FireRedASRServer.transcribe_audio
  split
  · exact firered_body_stats env s p []
  · rcases hI : FireRedASRServer.initModels env s with ⟨s1, r1, ev⟩
    have hpres := firered_initModels_preserves env s
    rw [hI] at hpres
    simp only at hpres
    dsimp only
    split
    · have hb := firered_body_stats env s1 p ev
      exact ⟨hb.1, by rw [hb.2.1, hpres.1], by rw [hb.2.2, hpres.2]⟩
    · rename_i hns
      have hfalse : isSuccess r1 = false := by
        revert hns
        cases isSuccess r1 <;> simp
      have hst : isSuccTransResp r1 = false := by
        simp [isSuccTransResp, hfalse]
      simp [hfalse, hst, hpres.1, hpres.2]

/-- Counter bookkeeping of GLMASRServer.transcribe_audio. -/
theorem glm_transcribe_stats (env : GLMEnv) (s : GLMState) (p : Option String)
    (o : TranscribeOptions) :
    isSuccess (GLMASRServer.transcribe_audio env s p o).2.1 =
      isSuccTransResp (GLMASRServer.transcribe_audio env s p o).2.1 ∧
    (GLMASRServer.transcribe_audio env s p o).1.transcription_count =
      s.transcription_count +
        (if isSuccTransResp (GLMASRServer.transcribe_audio env s p o).2.1 then 1 else 0) ∧
    (GLMASRServer.transcribe_audio env s p o).1.total_audio_duration =
      s.total_audio_duration +
        (if isSuccTransResp (GLMASRServer.transcribe_audio env s p o).2.1
         then getDurQ (GLMASRServer.transcribe_audio env s p o).2.1 else 0) := by
  unfold GLMASRServer.transcribe_audio
  split
  · exact glm_body_stats env s p []
  · rcases hI : GLMASRServer.initModels env s with ⟨s1, r1, ev⟩
    have hpres := glm_initModels_preserves env s
    rw [hI] at hpres
    simp only at hpres
    dsimp only
    split
    · have hb := glm_body_stats env s1 p ev
      exact ⟨hb.1, by rw [hb.2.1, hpres.1], by rw [hb.2.2, hpres.2]⟩
    · rename_i hns
      have hfalse : isSuccess r1 = false := by
        revert hns
        cases isSuccess r1 <;> simp
      have hst : isSuccTransResp r1 = false := by
        simp [isSuccTransResp, hfalse]
      simp [hfalse, hst, hpres.1, hpres.2]

/-- The status response never carries a duration field (FunASR). -/
theorem funasr_statusResponse_noDur (env : FunEnv) (s : FunState) :
    isSuccTransResp (FunASRServer.statusResponse env s) = false := by
  unfold FunASRServer.statusResponse FunASRServer.check_status FunASRServer.check_status_try
  cases env.funasrVersion <;> simp [isSuccTransResp, isSuccess, getField]

/-- The status response never carries a duration field (FireRedASR). -/
theorem firered_statusResponse_noDur (env : FireEnv) (s : FireState) :
    isSuccTransResp (FireRedASRServer.statusResponse env s) = false := by
  unfold FireRedASRServer.statusResponse FireRedASRServer.check_status
    FireRedASRServer.check_status_try
  by_cases ht : env.torchOk = false
  · simp [ht, isSuccTransResp, isSuccess, getField]
  · simp only [if_neg ht]
    rcases env.cudaAvailable with e | cuda
    · simp [isSuccTransResp, isSuccess, getField]
    · cases cuda
      · simp [isSuccTransResp, isSuccess, getField]
      · rcases env.gpuName with e | n
        · simp [isSuccTransResp, isSuccess, getField]
        · rcases env.gpuMemTotal with e | m
          · simp [isSuccTransResp, isSuccess, getField]
          · by_cases hi : s.initialized = true
            · simp only [if_pos hi]
              rcases env.gpuMemUsed with e | u <;>
                simp [isSuccTransResp, isSuccess, getField]
            · simp [if_neg hi, isSuccTransResp, isSuccess, getField]

/-- The status response never carries a duration field (GLM-ASR). -/
theorem glm_statusResponse_noDur (env : GLMEnv) (s : GLMState) :
    isSuccTransResp (GLMASRServer.statusResponse env s) = false := by
  unfold GLMASRServer.statusResponse GLMASRServer.check_status GLMASRServer.check_status_try
  by_cases ht : env.torchOk = false
  · simp [ht, isSuccTransResp, isSuccess, getField]
  · simp only [if_neg ht]
    rcases env.cudaAvailable with e | cuda
    · simp [isSuccTransResp, isSuccess, getField]
    · cases cuda
      · simp [isSuccTransResp, isSuccess, getField]
      · rcases env.gpuName with e | n
        · simp [isSuccTransResp, isSuccess, getField]
        · rcases env.gpuMemTotal with e | m
          · simp [isSuccTransResp, isSuccess, getField]
          · by_cases hi : s.initialized = true
            · simp only [if_pos hi]
              rcases env.gpuMemUsed with e | u <;>
                simp [isSuccTransResp, isSuccess, getField]
            · simp [if_neg hi, isSuccTransResp, isSuccess, getField]

/-- Unfolding of succDurations over a cons. -/
theorem succDurations_cons (r : Response) (outs : List Response) :
    succDurations (r :: outs) =
      if isSuccTransResp r then getDurQ r :: succDurations outs else succDurations outs := by
  simp only [succDurations, List.filter_cons]
  split <;> simp_all

/-- Per-dispatch counter bookkeeping of the FunASR command handler,
under a no-empty-result oracle. -/
theorem funasr_step_stats (env : FunEnv) (hne : env.noEmptyAsrResult)
    (s : FunState) (c : Command) :
    (FunASRServer.handleCommand env s c).1.transcription_count =
      s.transcription_count +
        (if isSuccTransResp (FunASRServer.handleCommand env s c).2.1 then 1 else 0) ∧
    (FunASRServer.handleCommand env s c).1.total_audio_duration =
      s.total_audio_duration +
        (if isSuccTransResp (FunASRServer.handleCommand env s c).2.1
         then getDurQ (FunASRServer.handleCommand env s c).2.1 else 0) := by
  unfold FunASRServer.handleCommand
  by_cases h1 : c.action = some "transcribe"
  · simp only [if_pos h1]
    rcases hT : FunASRServer.transcribe_audio env s c.audio_path c.options with ⟨s', r, ev⟩
    have hst := funasr_transcribe_stats env hne s c.audio_path c.options
    rw [hT] at hst
    simp only at hst
    dsimp only
    exact ⟨hst.2.1, hst.2.2⟩
  · simp only [if_neg h1]
    split
    · simp [funasr_statusResponse_noDur env s]
    · split
      · simp [isSuccTransResp, isSuccess, getField]
      · split
        · simp [isSuccTransResp, isSuccess, getField]
        · split <;> simp [isSuccTransResp, isSuccess, getField]

/-- Per-dispatch counter bookkeeping of the FireRedASR command
handler. -/
theorem firered_step_stats (env : FireEnv) (s : FireState) (c : Command) :
    (FireRedASRServer.handleCommand env s c).1.transcription_count =
      s.transcription_count +
        (if isSuccTransResp (FireRedASRServer.handleCommand env s c).2.1 then 1 else 0) ∧
    (FireRedASRServer.handleCommand env s c).1.total_audio_duration =
      s.total_audio_duration +
        (if isSuccTransResp (FireRedASRServer.handleCommand env s c).2.1
         then getDurQ (FireRedASRServer.handleCommand env s c).2.1 else 0) := by
  unfold FireRedASRServer.handleCommand
  by_cases h1 : c.action = some "transcribe"
  · simp only [if_pos h1]
    rcases hT : FireRedASRServer.transcribe_audio env s c.audio_path c.options with ⟨s', r, ev⟩
    have hst := firered_transcribe_stats env s c.audio_path c.options
    rw [hT] at hst
    simp only at hst
    dsimp only
    exact ⟨hst.2.1, hst.2.2⟩
  · simp only [if_neg h1]
    split
    · simp [firered_statusResponse_noDur env s]
    · split
      · simp [isSuccTransResp, isSuccess, getField]
      · split
        · simp [isSuccTransResp, isSuccess, getField]
        · split <;> simp [isSuccTransResp, isSuccess, getField]

/-- Per-dispatch counter bookkeeping of the GLM-ASR command handler. -/
theorem glm_step_stats (env : GLMEnv) (s : GLMState) (c : Command) :
    (GLMASRServer.handleCommand env s c).1.transcription_count =
      s.transcription_count +
        (if isSuccTransResp (GLMASRServer.handleCommand env s c).2.1 then 1 else 0) ∧
    (GLMASRServer.handleCommand env s c).1.total_audio_duration =
      s.total_audio_duration +
        (if isSuccTransResp (GLMASRServer.handleCommand env s c).2.1
         then getDurQ (GLMASRServer.handleCommand env s c).2.1 else 0) := by
  unfold GLMASRServer.handleCommand
  by_cases h1 : c.action = some "transcribe"
  · simp only [if_pos h1]
    rcases hT : GLMASRServer.transcribe_audio env s c.audio_path c.options with ⟨s', r, ev⟩
    have hst := glm_transcribe_stats env s c.audio_path c.options
    rw [hT] at hst
    simp only at hst
    dsimp only
    exact ⟨hst.2.1, hst.2.2⟩
  · simp only [if_neg h1]
    split
    · simp [glm_statusResponse_noDur env s]
    · split
      · simp [isSuccTransResp, isSuccess, getField]
      · split
        · simp [isSuccTransResp, isSuccess, getField]
        · split <;> simp [isSuccTransResp, isSuccess, getField]

/-- Accumulation of the request counter and cumulative duration over a
protocol-loop run, for any handler whose per-dispatch bookkeeping
follows the step lemmas above: the final counter exceeds the initial
one by the number of successful transcription responses emitted, and
the final cumulative duration by their summed durations. -/
theorem runLoop_stats_acc {St : Type} (handle : St → Command → St × Response × Bool)
    (msg : String) (cnt : St → ℕ) (tot : St → ℚ)
    (hstep : ∀ s c,
      cnt (handle s c).1 = cnt s + (if isSuccTransResp (handle s c).2.1 then 1 else 0) ∧
      tot (handle s c).1 = tot s +
        (if isSuccTransResp (handle s c).2.1 then getDurQ (handle s c).2.1 else 0)) :
    ∀ (lines : List RawLine) (s : St),
      cnt (runLoop handle msg s lines).state =
        cnt s + (succDurations (runLoop handle msg s lines).outputs).length ∧
      tot (runLoop handle msg s lines).state =
        tot s + (succDurations (runLoop handle msg s lines).outputs).sum := by
  intro lines
  induction lines with
  | nil =>
    intro s
    simp [runLoop, succDurations]
  | cons l rest ih =>
    intro s
    simp only [runLoop]
    split
    · simp [succDurations]
    · split
      · exact ih s
      · rcases hp : l.parsed with _ | c
        · dsimp only
          have hrec := ih s
          rw [succDurations_cons]
          simp [hrec.1, hrec.2]
        · dsimp only
          rcases hH : handle s c with ⟨s', r, brk⟩
          have hs := hstep s c
          rw [hH] at hs
          simp only at hs
          cases brk
          · dsimp only
            have hrec := ih s'
            rw [succDurations_cons]
            by_cases hr : isSuccTransResp r = true
            · simp only [if_pos hr]
              constructor
              · rw [hrec.1, hs.1, if_pos hr]
                simp only [List.length_cons]
                omega
              · rw [hrec.2, hs.2, if_pos hr]
                simp only [List.sum_cons]
                ring
            · simp only [if_neg hr]
              constructor
              · rw [hrec.1, hs.1, if_neg hr]
                simp
              · rw [hrec.2, hs.2, if_neg hr]
                simp
          · dsimp only
            rw [succDurations_cons]
            by_cases hr : isSuccTransResp r = true
            · simp only [if_pos hr]
              exact ⟨by rw [hs.1, if_pos hr]; simp [succDurations],
                     by rw [hs.2, if_pos hr]; simp [succDurations]⟩
            · simp only [if_neg hr]
              exact ⟨by rw [hs.1, if_neg hr]; simp [succDurations],
                     by rw [hs.2, if_neg hr]; simp [succDurations]⟩

/-- Unconditional counter facts of the funasr transcription body: any
run of the body changes the counter by zero or one, and a success
response means it advanced by exactly one. The converse fails: the
empty-result corner advances the counter and then fails. -/
theorem funasr_body_count_bounds (env : FunEnv) (s : FunState) (p : Option String)
    (o : TranscribeOptions) (ev0 : List Event) :
    ((FunASRServer.transcribeBody env s p o ev0).1.transcription_count =
        s.transcription_count ∨
     (FunASRServer.transcribeBody env s p o ev0).1.transcription_count =
        s.transcription_count + 1) ∧
    (isSuccess (FunASRServer.transcribeBody env s p o ev0).2.1 = true →
      (FunASRServer.transcribeBody env s p o ev0).1.transcription_count =
        s.transcription_count + 1) := by
  cases p with
  | none => simp [FunASRServer.transcribeBody]
  | some p =>
    simp only [FunASRServer.transcribeBody]
    split
    · simp
    · rcases hv : (if o.use_vad.getD true = true then env.vadGen p else Except.ok ()) with e | u
      · simp
      · rcases ha : env.asrGen p with e | res
        · simp
        · rcases res with xs | r
          · rcases xs with _ | ⟨x, rest⟩ <;>
              exact ⟨Or.inr rfl, fun _ => rfl⟩
          · exact ⟨Or.inr rfl, fun _ => rfl⟩

/-- The counter facts lifted through the lazy-initialization gate of
FunASRServer.transcribe_audio. -/
theorem funasr_transcribe_count_bounds (env : FunEnv) (s : FunState) (p : Option String)
    (o : TranscribeOptions) :
    ((FunASRServer.transcribe_audio env s p o).1.transcription_count =
        s.transcription_count ∨
     (FunASRServer.transcribe_audio env s p o).1.transcription_count =
        s.transcription_count + 1) ∧
    (isSuccess (FunASRServer.transcribe_audio env s p o).2.1 = true →
      (FunASRServer.transcribe_audio env s p o).1.transcription_count =
        s.transcription_count + 1) := by
  unfold FunASRServer.transcribe_audio
  split
  · exact funasr_body_count_bounds env s p o []
  · rcases hI : FunASRServer.initModels env s with ⟨s1, r1, ev⟩
    have hpres := funasr_initModels_preserves env s
    rw [hI] at hpres
    simp only at hpres
    dsimp only
    split
    · have hb := funasr_body_count_bounds env s1 p o ev
      rw [hpres.1] at hb
      exact hb
    · rename_i hns
      have hfalse : isSuccess r1 = false := by
        revert hns
        cases isSuccess r1 <;> simp
      exact ⟨Or.inl hpres.1, by simp [hfalse]⟩

/-- The counter facts at the dispatch level of the FunASR server. -/
theorem funasr_step_count_bounds (env : FunEnv) (s : FunState) (c : Command) :
    ((FunASRServer.handleCommand env s c).1.transcription_count = s.transcription_count ∨
     (FunASRServer.handleCommand env s c).1.transcription_count = s.transcription_count + 1) ∧
    (c.action ≠ some "transcribe" →
      (FunASRServer.handleCommand env s c).1.transcription_count = s.transcription_count) ∧
    (c.action = some "transcribe" →
      isSuccess (FunASRServer.handleCommand env s c).2.1 = true →
      (FunASRServer.handleCommand env s c).1.transcription_count =
        s.transcription_count + 1) := by
  unfold FunASRServer.handleCommand
  by_cases h1 : c.action = some "transcribe"
  · simp only [if_pos h1]
    rcases hT : FunASRServer.transcribe_audio env s c.audio_path c.options with ⟨s', r, ev⟩
    have hb := funasr_transcribe_count_bounds env s c.audio_path c.options
    rw [hT] at hb
    simp only at hb
    dsimp only
    exact ⟨hb.1, fun hx => absurd h1 hx, fun _ => hb.2⟩
  · simp only [if_neg h1]
    by_cases h2 : c.action = some "status"
    · rw [if_pos h2]
      exact ⟨Or.inl rfl, fun _ => rfl, fun hx _ => absurd hx h1⟩
    · rw [if_neg h2]
      by_cases h3 : c.action = some "stats"
      · rw [if_pos h3]
        exact ⟨Or.inl rfl, fun _ => rfl, fun hx _ => absurd hx h1⟩
      · rw [if_neg h3]
        by_cases h4 : c.action = some "cleanup"
        · rw [if_pos h4]
          exact ⟨Or.inl rfl, fun _ => rfl, fun hx _ => absurd hx h1⟩
        · rw [if_neg h4]
          by_cases h5 : c.action = some "exit"
          · rw [if_pos h5]
            exact ⟨Or.inl rfl, fun _ => rfl, fun hx _ => absurd hx h1⟩
          · rw [if_neg h5]
            exact ⟨Or.inl rfl, fun _ => rfl, fun hx _ => absurd hx h1⟩

/-- C3 counterexample: with a generate call that returns an empty
result list, a transcribe on a ready FunASR worker is answered with a
transcription_error failure, yet the request counter was incremented —
the counter increases on a failed transcription (funasr_server.py
increments at line 293 before the confidence expression at lines
298-302 raises IndexError on the empty list), refuting the claim that
the counter is incremented exactly on success true. -/
theorem counter_increment_on_failure_cex :
    isSuccess (FunASRServer.transcribe_audio funEnvEmptyResult funasrReady
        (some "/a") noOptions).2.1 = false ∧
    getField (FunASRServer.transcribe_audio funEnvEmptyResult funasrReady
        (some "/a") noOptions).2.1 "type" = some (JVal.s "transcription_error") ∧
    (FunASRServer.transcribe_audio funEnvEmptyResult funasrReady
        (some "/a") noOptions).1.transcription_count =
      funasrReady.transcription_count + 1 :=
  ⟨rfl, rfl, rfl⟩

/-- C3 (amended): on the FireRed and GLM servers the request counter
after any dispatched command equals its prior value plus one exactly
when the command is a transcribe answered with success true. On the
FunASR server every command changes the counter by zero or one,
non-transcribe commands leave it unchanged, and every successful
transcribe increments it by exactly one — but the converse fails
there: a transcribe whose model invocation returns an empty result
list increments the counter and then fails while the result dict is
built (see the counterexample). On no server is the counter ever
decremented or reset by a command. -/
theorem requestCount_increment_rule :
    (∀ (env : FireEnv) (s : FireState) (c : Command),
      (FireRedASRServer.handleCommand env s c).1.transcription_count =
        s.transcription_count +
          (if c.action = some "transcribe" ∧
              isSuccess (FireRedASRServer.handleCommand env s c).2.1 = true
           then 1 else 0)) ∧
    (∀ (env : GLMEnv) (s : GLMState) (c : Command),
      (GLMASRServer.handleCommand env s c).1.transcription_count =
        s.transcription_count +
          (if c.action = some "transcribe" ∧
              isSuccess (GLMASRServer.handleCommand env s c).2.1 = true
           then 1 else 0)) ∧
    (∀ (env : FunEnv) (s : FunState) (c : Command),
      ((FunASRServer.handleCommand env s c).1.transcription_count = s.transcription_count ∨
       (FunASRServer.handleCommand env s c).1.transcription_count = s.transcription_count + 1) ∧
      (c.action ≠ some "transcribe" →
        (FunASRServer.handleCommand env s c).1.transcription_count = s.transcription_count) ∧
      (c.action = some "transcribe" →
        isSuccess (FunASRServer.handleCommand env s c).2.1 = true →
        (FunASRServer.handleCommand env s c).1.transcription_count =
          s.transcription_count + 1)) := by
  refine ⟨?_, ?_, fun env s c => funasr_step_count_bounds env s c⟩
  · intro env s c
    unfold FireRedASRServer.handleCommand
    by_cases h1 : c.action = some "transcribe"
    · simp only [if_pos h1]
      rcases hT : FireRedASRServer.transcribe_audio env s c.audio_path c.options with ⟨s', r, ev⟩
      have hst := firered_transcribe_stats env s c.audio_path c.options
      rw [hT] at hst
      simp only at hst
      dsimp only
      rw [hst.2.1]
      simp [h1, hst.1]
    · simp only [if_neg h1]
      split
      · simp [h1]
      · split
        · simp [h1]
        · split
          · simp [h1]
          · split <;> simp [h1]
  · intro env s c
    unfold GLMASRServer.handleCommand
    by_cases h1 : c.action = some "transcribe"
    · simp only [if_pos h1]
      rcases hT : GLMASRServer.transcribe_audio env s c.audio_path c.options with ⟨s', r, ev⟩
      have hst := glm_transcribe_stats env s c.audio_path c.options
      rw [hT] at hst
      simp only at hst
      dsimp only
      rw [hst.2.1]
      simp [h1, hst.1]
    · simp only [if_neg h1]
      split
      · simp [h1]
      · split
        · simp [h1]
        · split
          · simp [h1]
          · split <;> simp [h1]

/-- Witness for requestCount_increment_rule: the FunASR conjunct's
hypotheses discharged at concrete inputs — a stats command leaves the
counter alone, a successful transcribe advances it by one. -/
theorem requestCount_increment_rule_witness :
    (FunASRServer.handleCommand funEnvOk funasrReady
        { action := some "stats", audio_path := none,
          options := noOptions }).1.transcription_count =
      funasrReady.transcription_count ∧
    (FunASRServer.handleCommand funEnvOk funasrReady
        { action := some "transcribe", audio_path := some "/a",
          options := noOptions }).1.transcription_count =
      funasrReady.transcription_count + 1 :=
  ⟨(requestCount_increment_rule.2.2 funEnvOk funasrReady
      { action := some "stats", audio_path := none, options := noOptions }).2.1
      (by decide),
   (requestCount_increment_rule.2.2 funEnvOk funasrReady
      { action := some "transcribe", audio_path := some "/a",
        options := noOptions }).2.2 rfl rfl⟩

/-- The initialization responses never carry a duration field
(FunASR). -/
theorem funasr_initModels_noDur (env : FunEnv) (s : FunState) :
    isSuccTransResp (FunASRServer.initModels env s).2.1 = false := by
  unfold FunASRServer.initModels
  split
  · simp [isSuccTransResp, isSuccess, getField]
  · split
    · simp [isSuccTransResp, isSuccess, getField]
    · cases ha : env.asrLoadOk <;> cases hv : env.vadLoadOk <;>
        simp [ha, hv, isSuccTransResp, isSuccess, getField]

/-- The initialization responses never carry a duration field
(FireRedASR). -/
theorem firered_initModels_noDur (env : FireEnv) (s : FireState) :
    isSuccTransResp (FireRedASRServer.initModels env s).2.1 = false := by
  unfold FireRedASRServer.initModels
  split
  · simp [isSuccTransResp, isSuccess, getField]
  · split
    · simp [isSuccTransResp, isSuccess, getField]
    · split <;> simp [isSuccTransResp, isSuccess, getField]

/-- The FunASR startup phase preserves the counters and its first
output line is never a successful transcription response. -/
theorem funasr_startup_preserves (env : FunEnv) (s : FunState) :
    (FunASRServer.startup env s).1.transcription_count = s.transcription_count ∧
    (FunASRServer.startup env s).1.total_audio_duration = s.total_audio_duration ∧
    isSuccTransResp (FunASRServer.startup env s).2.1 = false := by
  unfold FunASRServer.startup
  split
  · exact ⟨(funasr_initModels_preserves env s).1, (funasr_initModels_preserves env s).2,
           funasr_initModels_noDur env s⟩
  · simp [isSuccTransResp, isSuccess, getField]

/-- Field projections of the FunASR stats report. -/
theorem funasr_stats_fields (s : FunState) :
    getField (FunASRServer.get_performance_stats s) "transcription_count" =
      some (JVal.q (s.transcription_count : ℚ)) ∧
    getField (FunASRServer.get_performance_stats s) "average_duration" =
      some (JVal.q (pyRound2 (s.total_audio_duration /
        ((max 1 s.transcription_count : ℕ) : ℚ)))) :=
  ⟨rfl, rfl⟩

/-- Field projections of the FireRedASR stats report. -/
theorem firered_stats_fields (env : FireEnv) (s : FireState) :
    getField (FireRedASRServer.get_performance_stats env s) "transcription_count" =
      some (JVal.q (s.transcription_count : ℚ)) ∧
    getField (FireRedASRServer.get_performance_stats env s) "average_duration" =
      some (JVal.q (pyRound2 (s.total_audio_duration /
        ((max 1 s.transcription_count : ℕ) : ℚ)))) :=
  ⟨rfl, rfl⟩

/-- Counter bookkeeping over a whole FunASR server run: the final
counter is the number of successful transcription responses emitted
and the final cumulative duration is the sum of their reported
durations. -/
theorem funasr_runServer_stats (env : FunEnv) (hne : env.noEmptyAsrResult)
    (lines : List RawLine) :
    (FunASRServer.runServer env lines).state.transcription_count =
      (succDurations (FunASRServer.runServer env lines).outputs).length ∧
    (FunASRServer.runServer env lines).state.total_audio_duration =
      (succDurations (FunASRServer.runServer env lines).outputs).sum := by
  unfold FunASRServer.runServer
  rcases hS : FunASRServer.startup env funasrStart with ⟨s1, r0, ev⟩
  have hpre := funasr_startup_preserves env funasrStart
  rw [hS] at hpre
  simp only at hpre
  have hacc := runLoop_stats_acc (FunASRServer.handleCommand env) "无效的JSON命令"
    (fun st => st.transcription_count) (fun st => st.total_audio_duration)
    (fun st c => funasr_step_stats env hne st c) lines s1
  simp only at hacc
  dsimp only
  rw [succDurations_cons, if_neg (by simp [hpre.2.2])]
  constructor
  · rw [hacc.1, hpre.1]
    simp [funasrStart]
  · rw [hacc.2, hpre.2.1]
    simp [funasrStart]

/-- Counter bookkeeping over a whole FireRedASR server run. -/
theorem firered_runServer_stats (env : FireEnv) (lines : List RawLine) :
    (FireRedASRServer.runServer env lines).state.transcription_count =
      (succDurations (FireRedASRServer.runServer env lines).outputs).length ∧
    (FireRedASRServer.runServer env lines).state.total_audio_duration =
      (succDurations (FireRedASRServer.runServer env lines).outputs).sum := by
  unfold FireRedASRServer.runServer
  rcases hS : FireRedASRServer.initModels env fireredStart with ⟨s1, r0, ev⟩
  have hpre := firered_initModels_preserves env fireredStart
  have hnod := firered_initModels_noDur env fireredStart
  rw [hS] at hpre hnod
  simp only at hpre hnod
  have hacc := runLoop_stats_acc (FireRedASRServer.handleCommand env) "无效的 JSON 命令"
    (fun st => st.transcription_count) (fun st => st.total_audio_duration)
    (fun st c => firered_step_stats env st c) lines s1
  simp only at hacc
  dsimp only
  rw [succDurations_cons, if_neg (by simp [hnod])]
  constructor
  · rw [hacc.1, hpre.1]
    simp [fireredStart]
  · rw [hacc.2, hpre.2]
    simp [fireredStart]

/-! ## Claim C4 -/

/-- The all-success FunASR oracle never answers a generate call with an
empty result list. -/
theorem funEnvOk_noEmpty : funEnvOk.noEmptyAsrResult := by
  intro p h
  simp [funEnvOk] at h

/-- The varied-duration FunASR oracle never answers a generate call
with an empty result list. -/
theorem funEnvDur_noEmpty : funEnvDur.noEmptyAsrResult := by
  intro p h
  simp [funEnvDur, funEnvOk] at h

/-- C4 counterexample, in two parts. Rounding: a FunASR run with three
successful transcriptions of durations 1, 0 and 0 seconds reports an
average duration of 0.33 — not the exact quotient 1/3 the
specification claims — because the code rounds the average to two
decimal places. Count: a FunASR run with zero successful
transcriptions (the generate call returns an empty result list, so the
transcribe fails after the counter was advanced) ends with the
transcription counter at 1, so the reported count can exceed the
number of successful transcriptions. -/
theorem stats_average_rounding_cex :
    succDurations (FunASRServer.runServer funEnvDur
        [transLine "a", transLine "b", transLine "c", statsLine]).outputs = [1, 0, 0] ∧
    getField (FunASRServer.get_performance_stats
        (FunASRServer.runServer funEnvDur
          [transLine "a", transLine "b", transLine "c", statsLine]).state)
        "average_duration" = some (JVal.q (33/100)) ∧
    (33/100 : ℚ) ≠ (1 + 0 + 0) / 3 ∧
    succDurations (FunASRServer.runServer funEnvEmptyResult
        [transLine "a", statsLine]).outputs = [] ∧
    (FunASRServer.runServer funEnvEmptyResult
        [transLine "a", statsLine]).state.transcription_count = 1 := by
  have hds : succDurations (FunASRServer.runServer funEnvDur
      [transLine "a", transLine "b", transLine "c", statsLine]).outputs = [1, 0, 0] := by
    decide
  have hst := funasr_runServer_stats funEnvDur funEnvDur_noEmpty
    [transLine "a", transLine "b", transLine "c", statsLine]
  refine ⟨hds, ?_, by norm_num, by decide, by decide⟩
  rw [(funasr_stats_fields _).2, hst.2, hst.1, hds]
  norm_num [pyRound2, roundHalfEven, ratFloorZ]

/-- C4 (amended): after any run of the FireRedASR server in which
exactly k successful transcriptions with reported durations d1..dk
occurred, the performance-stats report of the final state has
transcription_count equal to k and average_duration equal to
round(sum(di) / max(1, k), 2) — the quotient guarded by max(1, k) and
then rounded half-to-even to two decimal places (so for k = 0 the
average is 0, and the exact quotient is reported only when it has at
most two decimals); the stats command wraps exactly this report in a
success envelope. The same holds of a FunASR run provided the model
invocation never returns an empty result list during the run; without
that proviso a FunASR transcribe can advance the counter and then fail
(see the counterexample), making the reported count exceed k. -/
theorem stats_reports_rounded_average :
    (∀ (env : FunEnv) (lines : List RawLine),
      (∀ (s : FunState),
        FunASRServer.handleCommand env s
            { action := some "stats", audio_path := none, options := noOptions } =
          (s, [("success", JVal.b true),
               ("stats", JVal.obj (FunASRServer.get_performance_stats s))], false)) ∧
      (env.noEmptyAsrResult →
        getField (FunASRServer.get_performance_stats (FunASRServer.runServer env lines).state)
            "transcription_count" =
          some (JVal.q ((succDurations (FunASRServer.runServer env lines).outputs).length : ℚ)) ∧
        getField (FunASRServer.get_performance_stats (FunASRServer.runServer env lines).state)
            "average_duration" =
          some (JVal.q (pyRound2 ((succDurations (FunASRServer.runServer env lines).outputs).sum /
            ((max 1 (succDurations (FunASRServer.runServer env lines).outputs).length : ℕ) : ℚ)))))) ∧
    (∀ (env : FireEnv) (lines : List RawLine),
      getField (FireRedASRServer.get_performance_stats env
          (FireRedASRServer.runServer env lines).state) "transcription_count" =
        some (JVal.q ((succDurations (FireRedASRServer.runServer env lines).outputs).length : ℚ)) ∧
      getField (FireRedASRServer.get_performance_stats env
          (FireRedASRServer.runServer env lines).state) "average_duration" =
        some (JVal.q (pyRound2 ((succDurations (FireRedASRServer.runServer env lines).outputs).sum /
          ((max 1 (succDurations (FireRedASRServer.runServer env lines).outputs).length : ℕ) : ℚ)))) ∧
      (∀ (s : FireState),
        FireRedASRServer.handleCommand env s
            { action := some "stats", audio_path := none, options := noOptions } =
          (s, [("success", JVal.b true),
               ("stats", JVal.obj (FireRedASRServer.get_performance_stats env s))], false))) := by
  constructor
  · intro env lines
    refine ⟨fun s => rfl, fun hne => ?_⟩
    obtain ⟨hc, ht⟩ := funasr_runServer_stats env hne lines
    constructor
    · rw [(funasr_stats_fields _).1, hc]
    · rw [(funasr_stats_fields _).2, ht, hc]
  · intro env lines
    obtain ⟨hc, ht⟩ := firered_runServer_stats env lines
    refine ⟨?_, ?_, ?_⟩
    · rw [(firered_stats_fields env _).1, hc]
    · rw [(firered_stats_fields env _).2, ht, hc]
    · intro s
      rfl

/-- Witness for stats_reports_rounded_average at a concrete FunASR run
whose oracle never answers a generate call with an empty result
list. -/
theorem stats_reports_rounded_average_witness :
    funEnvDur.noEmptyAsrResult ∧
    (getField (FunASRServer.get_performance_stats
        (FunASRServer.runServer funEnvDur [transLine "a", statsLine]).state)
        "transcription_count" =
      some (JVal.q ((succDurations
        (FunASRServer.runServer funEnvDur [transLine "a", statsLine]).outputs).length : ℚ)) ∧
     getField (FunASRServer.get_performance_stats
        (FunASRServer.runServer funEnvDur [transLine "a", statsLine]).state)
        "average_duration" =
      some (JVal.q (pyRound2 ((succDurations
        (FunASRServer.runServer funEnvDur [transLine "a", statsLine]).outputs).sum /
        ((max 1 (succDurations
          (FunASRServer.runServer funEnvDur [transLine "a", statsLine]).outputs).length : ℕ) : ℚ))))) :=
  ⟨funEnvDur_noEmpty,
   (stats_reports_rounded_average.1 funEnvDur [transLine "a", statsLine]).2 funEnvDur_noEmpty⟩

/-! ## Claim C5 -/

/-- C5 counterexample: a successful FunASR transcribe response carries
no raw_text field (its fields are success, text, confidence, duration,
language, model_type). -/
theorem funasr_raw_text_missing_cex :
    isSuccess (FunASRServer.transcribe_audio funEnvOk funasrReady (some "/a") noOptions).2.1 = true ∧
    getField (FunASRServer.transcribe_audio funEnvOk funasrReady (some "/a") noOptions).2.1
      "raw_text" = none :=
  ⟨rfl, rfl⟩

/-- Shape of the successful FunASR transcription response. -/
theorem funasr_body_success_shape (env : FunEnv) (s : FunState) (p : Option String)
    (o : TranscribeOptions) (ev0 : List Event) :
    isSuccess (FunASRServer.transcribeBody env s p o ev0).2.1 = true →
    ∃ t c d, (FunASRServer.transcribeBody env s p o ev0).2.1 =
      [("success", JVal.b true), ("text", JVal.s t), ("confidence", JVal.q c),
       ("duration", JVal.q d), ("language", JVal.s "zh-CN"),
       ("model_type", JVal.s "pytorch")] := by
  cases p with
  | none => simp [FunASRServer.transcribeBody]
  | some p =>
    simp only [FunASRServer.transcribeBody]
    split
    · simp
    · rcases hv : (if o.use_vad.getD true = true then env.vadGen p else Except.ok ()) with e | u
      · simp
      · rcases ha : env.asrGen p with e | res
        · simp
        · rcases res with xs | r
          · rcases xs with _ | ⟨x, rest⟩
            · simp [FunASRServer.confidenceExpr]
            · intro _
              exact ⟨_, _, _, rfl⟩
          · intro _
            exact ⟨_, _, _, rfl⟩

/-- Shape of the successful FireRedASR transcription response. -/
theorem firered_body_success_shape (env : FireEnv) (s : FireState) (p : Option String)
    (ev0 : List Event) :
    isSuccess (FireRedASRServer.transcribeBody env s p ev0).2.1 = true →
    ∃ ft rt d, (FireRedASRServer.transcribeBody env s p ev0).2.1 =
      [("success", JVal.b true), ("text", JVal.s ft), ("raw_text", JVal.s rt),
       ("duration", JVal.q d), ("language", JVal.s "auto"),
       ("model_type", JVal.s ("firered-asr-" ++ env.model_type))] := by
  by_cases hl : env.librosaOk = false
  · simp [FireRedASRServer.transcribeBody, hl]
  · cases p with
    | none => simp [FireRedASRServer.transcribeBody, hl]
    | some p =>
      simp only [FireRedASRServer.transcribeBody, if_neg hl]
      split
      · simp
      · rcases hd : env.audioDuration p with e | d
        · simp
        · rcases ha : env.asrTranscribe p with e | t
          · simp
          · intro _
            exact ⟨_, _, d, rfl⟩

/-- Shape of the successful GLM-ASR transcription response. -/
theorem glm_body_success_shape (env : GLMEnv) (s : GLMState) (p : Option String)
    (ev0 : List Event) :
    isSuccess (GLMASRServer.transcribeBody env s p ev0).2.1 = true →
    ∃ t d, (GLMASRServer.transcribeBody env s p ev0).2.1 =
      [("success", JVal.b true), ("text", JVal.s t), ("raw_text", JVal.s t),
       ("duration", JVal.q d), ("language", JVal.s "auto"),
       ("model_type", JVal.s "glm-asr-nano")] := by
  by_cases ht : env.torchOk = false
  · simp [GLMASRServer.transcribeBody, ht]
  · cases p with
    | none => simp [GLMASRServer.transcribeBody, ht]
    | some p =>
      simp only [GLMASRServer.transcribeBody, if_neg ht]
      split
      · simp
      · rcases hb : env.buildPrompt p with e | d
        · simp
        · rcases hg : env.generateDecode p with e | t
          · simp
          · intro _
            exact ⟨_, d, rfl⟩

/-- Successful FunASR transcribe responses keep the body's shape
through the lazy-initialization gate. -/
theorem funasr_success_shape (env : FunEnv) (s : FunState) (p : Option String)
    (o : TranscribeOptions) :
    isSuccess (FunASRServer.transcribe_audio env s p o).2.1 = true →
    ∃ t c d, (FunASRServer.transcribe_audio env s p o).2.1 =
      [("success", JVal.b true), ("text", JVal.s t), ("confidence", JVal.q c),
       ("duration", JVal.q d), ("language", JVal.s "zh-CN"),
       ("model_type", JVal.s "pytorch")] := by
  unfold FunASRServer.transcribe_audio
  split
  · exact funasr_body_success_shape env s p o []
  · rcases hI : FunASRServer.initModels env s with ⟨s1, r1, ev⟩
    dsimp only
    split
    · exact funasr_body_success_shape env s1 p o ev
    · rename_i hns
      intro h
      exact absurd h hns

/-- Successful FireRedASR transcribe responses keep the body's shape
through the lazy-initialization gate. -/
theorem firered_success_shape (env : FireEnv) (s : FireState) (p : Option String)
    (o : TranscribeOptions) :
    isSuccess (FireRedASRServer.transcribe_audio env s p o).2.1 = true →
    ∃ ft rt d, (FireRedASRServer.transcribe_audio env s p o).2.1 =
      [("success", JVal.b true), ("text", JVal.s ft), ("raw_text", JVal.s rt),
       ("duration", JVal.q d), ("language", JVal.s "auto"),
       ("model_type", JVal.s ("firered-asr-" ++ env.model_type))] := by
  unfold FireRedASRServer.transcribe_audio
  split
  · exact firered_body_success_shape env s p []
  · rcases hI : FireRedASRServer.initModels env s with ⟨s1, r1, ev⟩
    dsimp only
    split
    · exact firered_body_success_shape env s1 p ev
    · rename_i hns
      intro h
      exact absurd h hns

/-- Successful GLM-ASR transcribe responses keep the body's shape
through the lazy-initialization gate. -/
theorem glm_success_shape (env : GLMEnv) (s : GLMState) (p : Option String)
    (o : TranscribeOptions) :
    isSuccess (GLMASRServer.transcribe_audio env s p o).2.1 = true →
    ∃ t d, (GLMASRServer.transcribe_audio env s p o).2.1 =
      [("success", JVal.b true), ("text", JVal.s t), ("raw_text", JVal.s t),
       ("duration", JVal.q d), ("language", JVal.s "auto"),
       ("model_type", JVal.s "glm-asr-nano")] := by
  unfold GLMASRServer.transcribe_audio
  split
  · exact glm_body_success_shape env s p []
  · rcases hI : GLMASRServer.initModels env s with ⟨s1, r1, ev⟩
    dsimp only
    split
    · exact glm_body_success_shape env s1 p ev
    · rename_i hns
      intro h
      exact absurd h hns

/-- C5 (amended): every successful transcribe response of the FireRed
and GLM servers carries text, raw_text, duration, language and
model_type; the FunASR server's successful response carries text,
confidence, duration, language and model_type but no raw_text field. -/
theorem success_response_fields :
    (∀ (env : FunEnv) (s : FunState) (p : Option String) (o : TranscribeOptions),
      isSuccess (FunASRServer.transcribe_audio env s p o).2.1 = true →
      (∃ t, getField (FunASRServer.transcribe_audio env s p o).2.1 "text" =
        some (JVal.s t)) ∧
      (∃ d : ℚ, getField (FunASRServer.transcribe_audio env s p o).2.1 "duration" =
        some (JVal.q d)) ∧
      getField (FunASRServer.transcribe_audio env s p o).2.1 "language" =
        some (JVal.s "zh-CN") ∧
      getField (FunASRServer.transcribe_audio env s p o).2.1 "model_type" =
        some (JVal.s "pytorch") ∧
      getField (FunASRServer.transcribe_audio env s p o).2.1 "raw_text" = none) ∧
    (∀ (env : FireEnv) (s : FireState) (p : Option String) (o : TranscribeOptions),
      isSuccess (FireRedASRServer.transcribe_audio env s p o).2.1 = true →
      (∃ t, getField (FireRedASRServer.transcribe_audio env s p o).2.1 "text" =
        some (JVal.s t)) ∧
      (∃ rt, getField (FireRedASRServer.transcribe_audio env s p o).2.1 "raw_text" =
        some (JVal.s rt)) ∧
      (∃ d : ℚ, getField (FireRedASRServer.transcribe_audio env s p o).2.1 "duration" =
        some (JVal.q d)) ∧
      getField (FireRedASRServer.transcribe_audio env s p o).2.1 "language" =
        some (JVal.s "auto") ∧
      getField (FireRedASRServer.transcribe_audio env s p o).2.1 "model_type" =
        some (JVal.s ("firered-asr-" ++ env.model_type))) ∧
    (∀ (env : GLMEnv) (s : GLMState) (p : Option String) (o : TranscribeOptions),
      isSuccess (GLMASRServer.transcribe_audio env s p o).2.1 = true →
      (∃ t, getField (GLMASRServer.transcribe_audio env s p o).2.1 "text" =
        some (JVal.s t)) ∧
      (∃ rt, getField (GLMASRServer.transcribe_audio env s p o).2.1 "raw_text" =
        some (JVal.s rt)) ∧
      (∃ d : ℚ, getField (GLMASRServer.transcribe_audio env s p o).2.1 "duration" =
        some (JVal.q d)) ∧
      getField (GLMASRServer.transcribe_audio env s p o).2.1 "language" =
        some (JVal.s "auto") ∧
      getField (GLMASRServer.transcribe_audio env s p o).2.1 "model_type" =
        some (JVal.s "glm-asr-nano")) := by
  refine ⟨?_, ?_, ?_⟩
  · intro env s p o h
    obtain ⟨t, c, d, hr⟩ := funasr_success_shape env s p o h
    rw [hr]
    exact ⟨⟨t, rfl⟩, ⟨d, rfl⟩, rfl, rfl, rfl⟩
  · intro env s p o h
    obtain ⟨ft, rt, d, hr⟩ := firered_success_shape env s p o h
    rw [hr]
    exact ⟨⟨ft, rfl⟩, ⟨rt, rfl⟩, ⟨d, rfl⟩, rfl, rfl⟩
  · intro env s p o h
    obtain ⟨t, d, hr⟩ := glm_success_shape env s p o h
    rw [hr]
    exact ⟨⟨t, rfl⟩, ⟨t, rfl⟩, ⟨d, rfl⟩, rfl, rfl⟩

/-- Witness for success_response_fields on all three servers at
concrete successful transcriptions. -/
theorem success_response_fields_witness :
    ((∃ t, getField (FunASRServer.transcribe_audio funEnvOk funasrReady (some "/a") noOptions).2.1
        "text" = some (JVal.s t)) ∧
     (∃ d : ℚ, getField (FunASRServer.transcribe_audio funEnvOk funasrReady (some "/a") noOptions).2.1
        "duration" = some (JVal.q d)) ∧
     getField (FunASRServer.transcribe_audio funEnvOk funasrReady (some "/a") noOptions).2.1
        "language" = some (JVal.s "zh-CN") ∧
     getField (FunASRServer.transcribe_audio funEnvOk funasrReady (some "/a") noOptions).2.1
        "model_type" = some (JVal.s "pytorch") ∧
     getField (FunASRServer.transcribe_audio funEnvOk funasrReady (some "/a") noOptions).2.1
        "raw_text" = none) ∧
    ((∃ t, getField (FireRedASRServer.transcribe_audio fireEnvOk fireredReady (some "/a") noOptions).2.1
        "text" = some (JVal.s t)) ∧
     (∃ rt, getField (FireRedASRServer.transcribe_audio fireEnvOk fireredReady (some "/a") noOptions).2.1
        "raw_text" = some (JVal.s rt)) ∧
     (∃ d : ℚ, getField (FireRedASRServer.transcribe_audio fireEnvOk fireredReady (some "/a") noOptions).2.1
        "duration" = some (JVal.q d)) ∧
     getField (FireRedASRServer.transcribe_audio fireEnvOk fireredReady (some "/a") noOptions).2.1
        "language" = some (JVal.s "auto") ∧
     getField (FireRedASRServer.transcribe_audio fireEnvOk fireredReady (some "/a") noOptions).2.1
        "model_type" = some (JVal.s ("firered-asr-" ++ fireEnvOk.model_type))) ∧
    ((∃ t, getField (GLMASRServer.transcribe_audio glmEnvOk glmReady (some "/a") noOptions).2.1
        "text" = some (JVal.s t)) ∧
     (∃ rt, getField (GLMASRServer.transcribe_audio glmEnvOk glmReady (some "/a") noOptions).2.1
        "raw_text" = some (JVal.s rt)) ∧
     (∃ d : ℚ, getField (GLMASRServer.transcribe_audio glmEnvOk glmReady (some "/a") noOptions).2.1
        "duration" = some (JVal.q d)) ∧
     getField (GLMASRServer.transcribe_audio glmEnvOk glmReady (some "/a") noOptions).2.1
        "language" = some (JVal.s "auto") ∧
     getField (GLMASRServer.transcribe_audio glmEnvOk glmReady (some "/a") noOptions).2.1
        "model_type" = some (JVal.s "glm-asr-nano")) :=
  ⟨success_response_fields.1 funEnvOk funasrReady (some "/a") noOptions rfl,
   success_response_fields.2.1 fireEnvOk fireredReady (some "/a") noOptions rfl,
   success_response_fields.2.2 glmEnvOk glmReady (some "/a") noOptions rfl⟩

/-! ## Claim C6 -/

/-- C6: on the FireRedASR server, failure of the optional punctuation
restorer never changes the success of a transcribe that otherwise
succeeds, and the returned text equals the unrestored raw text — both
when the restorer failed to load (punc_model is None) and when the
restore call itself raises. -/
theorem punc_failure_keeps_raw_text (env : FireEnv) (s : FireState)
    (p : String) (o : TranscribeOptions) (d : ℚ) (t : String)
    (hinit : s.initialized = true)
    (hlib : env.librosaOk = true)
    (hfile : env.fileExists p = true)
    (hdur : env.audioDuration p = Except.ok d)
    (hasr : env.asrTranscribe p = Except.ok t) :
    (s.puncLoaded = false →
      isSuccess (FireRedASRServer.transcribe_audio env s (some p) o).2.1 = true ∧
      getField (FireRedASRServer.transcribe_audio env s (some p) o).2.1 "text" =
        some (JVal.s (pyStrip t)) ∧
      getField (FireRedASRServer.transcribe_audio env s (some p) o).2.1 "raw_text" =
        some (JVal.s (pyStrip t))) ∧
    (∀ emsg, env.puncRestore (pyStrip t) = Except.error emsg →
      isSuccess (FireRedASRServer.transcribe_audio env s (some p) o).2.1 = true ∧
      getField (FireRedASRServer.transcribe_audio env s (some p) o).2.1 "text" =
        some (JVal.s (pyStrip t)) ∧
      getField (FireRedASRServer.transcribe_audio env s (some p) o).2.1 "raw_text" =
        some (JVal.s (pyStrip t))) := by
  have hlib' : ¬(env.librosaOk = false) := by simp [hlib]
  have hfile' : ¬(env.fileExists p = false) := by simp [hfile]
  unfold FireRedASRServer.transcribe_audio FireRedASRServer.transcribeBody
  rw [if_pos hinit, if_neg hlib']
  dsimp only
  rw [if_neg hfile', hdur, hasr]
  dsimp only
  constructor
  · intro hp
    simp [hp, isSuccess, getField]
  · intro emsg hres
    cases hsp : s.puncLoaded <;> by_cases hraw : pyStrip t = "" <;>
      simp [hsp, hraw, hres, isSuccess, getField]

/-- Witness for punc_failure_keeps_raw_text: once with the restorer
unavailable since load, once with the restore call raising. -/
theorem punc_failure_keeps_raw_text_witness :
    (isSuccess (FireRedASRServer.transcribe_audio fireEnvOk fireredReadyNoPunc
        (some "/a") noOptions).2.1 = true ∧
     getField (FireRedASRServer.transcribe_audio fireEnvOk fireredReadyNoPunc
        (some "/a") noOptions).2.1 "text" = some (JVal.s (pyStrip "你好世界")) ∧
     getField (FireRedASRServer.transcribe_audio fireEnvOk fireredReadyNoPunc
        (some "/a") noOptions).2.1 "raw_text" = some (JVal.s (pyStrip "你好世界"))) ∧
    (isSuccess (FireRedASRServer.transcribe_audio fireEnvPuncRaises fireredReady
        (some "/a") noOptions).2.1 = true ∧
     getField (FireRedASRServer.transcribe_audio fireEnvPuncRaises fireredReady
        (some "/a") noOptions).2.1 "text" = some (JVal.s (pyStrip "你好世界")) ∧
     getField (FireRedASRServer.transcribe_audio fireEnvPuncRaises fireredReady
        (some "/a") noOptions).2.1 "raw_text" = some (JVal.s (pyStrip "你好世界"))) :=
  ⟨(punc_failure_keeps_raw_text fireEnvOk fireredReadyNoPunc "/a" noOptions 3 "你好世界"
      rfl rfl rfl rfl rfl).1 rfl,
   (punc_failure_keeps_raw_text fireEnvPuncRaises fireredReady "/a" noOptions 3 "你好世界"
      rfl rfl rfl rfl rfl).2 "punc crashed" rfl⟩

/-! ## Claim C7 -/

/-- Every completed run of the GLM status try block reports success
true at the head of its report. -/
theorem glm_status_try_ok_success (env : GLMEnv) (s : GLMState) (r : Response)
    (h : GLMASRServer.check_status_try env s = Except.ok r) :
    getField r "success" = some (JVal.b true) := by
  revert h
  unfold GLMASRServer.check_status_try
  by_cases ht : env.torchOk = false
  · simp [ht]
  · simp only [if_neg ht]
    rcases env.cudaAvailable with e | cuda
    · simp
    · cases cuda
      · intro h
        simp at h
        subst h
        simp [getField]
      · rcases env.gpuName with e | n
        · simp
        · rcases env.gpuMemTotal with e | m
          · simp
          · by_cases hi : s.initialized = true
            · simp only [if_pos hi]
              rcases env.gpuMemUsed with e | u
              · simp
              · intro h
                simp at h
                subst h
                simp [getField]
            · simp only [if_neg hi]
              intro h
              simp at h
              subst h
              simp [getField]

/-- C7: the status command never lets an exception escape. For funasr,
the try block's only possible exception is the ImportError of the
funasr import and the except clause catches exactly ImportError, so
check_status always returns a report, whose success flag mirrors
whether the import succeeded. For GLM, the blanket except clause
downgrades any introspection failure to a partial report carrying
success false, the error message and the initialized flag. -/
theorem status_never_raises :
    (∀ (env : FunEnv) (s : FunState),
      FunASRServer.check_status env s =
        Except.ok (FunASRServer.check_status_pure env s) ∧
      getField (FunASRServer.check_status_pure env s) "success" =
        some (JVal.b env.funasrVersion.isSome)) ∧
    (∀ (env : GLMEnv) (s : GLMState),
      GLMASRServer.check_status env s =
        Except.ok (GLMASRServer.check_status_pure env s) ∧
      getField (GLMASRServer.check_status_pure env s) "success" =
        some (JVal.b (GLMASRServer.introspectionOk env s)) ∧
      (GLMASRServer.introspectionOk env s = false →
        getField (GLMASRServer.check_status_pure env s) "success" =
          some (JVal.b false) ∧
        (∃ m, getField (GLMASRServer.check_status_pure env s) "error" =
          some (JVal.s m)) ∧
        getField (GLMASRServer.check_status_pure env s) "initialized" =
          some (JVal.b s.initialized))) := by
  constructor
  · intro env s
    cases hv : env.funasrVersion <;>
      simp [FunASRServer.check_status, FunASRServer.check_status_try,
            FunASRServer.check_status_pure, getField, hv]
  · intro env s
    rcases hT : GLMASRServer.check_status_try env s with e | r
    · refine ⟨?_, ?_, fun _ => ⟨?_, ⟨exnMsg e, ?_⟩, ?_⟩⟩ <;>
        simp only [GLMASRServer.check_status, GLMASRServer.check_status_pure,
              GLMASRServer.introspectionOk, hT] <;>
        simp [getField]
    · have hs := glm_status_try_ok_success env s r hT
      refine ⟨?_, ?_, ?_⟩
      · simp [GLMASRServer.check_status, GLMASRServer.check_status_pure, hT]
      · simp [GLMASRServer.check_status_pure, GLMASRServer.introspectionOk, hT, hs]
      · intro hfalse
        rw [GLMASRServer.introspectionOk] at hfalse
        simp [hT] at hfalse

/-- Witness for status_never_raises at a missing funasr package and a
raising accelerator probe. -/
theorem status_never_raises_witness :
    FunASRServer.check_status funEnvNoFunasr funasrStart =
      Except.ok (FunASRServer.check_status_pure funEnvNoFunasr funasrStart) ∧
    getField (FunASRServer.check_status_pure funEnvNoFunasr funasrStart) "success" =
      some (JVal.b false) ∧
    GLMASRServer.check_status glmEnvCudaRaises glmStart =
      Except.ok (GLMASRServer.check_status_pure glmEnvCudaRaises glmStart) ∧
    (∃ m, getField (GLMASRServer.check_status_pure glmEnvCudaRaises glmStart) "error" =
      some (JVal.s m)) := by
  have h1 := status_never_raises.1 funEnvNoFunasr funasrStart
  have h2 := status_never_raises.2 glmEnvCudaRaises glmStart
  exact ⟨h1.1, by rw [h1.2]; rfl, h2.1, (h2.2.2 rfl).2.1⟩

/-! ## Claim C8 -/

/-- C8 counterexample: the response to an unrecognized action carries
only success false and a human-readable error message — it has no
errorKind field and no type field, contradicting the claimed
errorKind "unknown_action". -/
theorem unknown_action_errorKind_cex :
    (FunASRServer.handleCommand funEnvOk funasrReady
        { action := some "frobnicate", audio_path := none, options := noOptions }).2.1 =
      [("success", JVal.b false), ("error", JVal.s "未知命令: frobnicate")] ∧
    getField (FunASRServer.handleCommand funEnvOk funasrReady
        { action := some "frobnicate", audio_path := none, options := noOptions }).2.1
      "errorKind" = none ∧
    getField (FunASRServer.handleCommand funEnvOk funasrReady
        { action := some "frobnicate", audio_path := none, options := noOptions }).2.1
      "type" = none ∧
    (GLMASRServer.handleCommand glmEnvOk glmReady
        { action := some "frobnicate", audio_path := none, options := noOptions }).2.1 =
      [("success", JVal.b false), ("error", JVal.s "未知命令: frobnicate")] :=
  ⟨rfl, rfl, rfl, rfl⟩

/-- C8 (amended): a command whose action is not one of transcribe,
status, stats, cleanup, exit is answered with success false and the
message 未知命令 plus the action — with no machine-readable errorKind
field — the state is returned unchanged, and the loop is not broken. -/
theorem unknown_action_no_state_change :
    (∀ (env : FunEnv) (s : FunState) (c : Command),
      c.action ≠ some "transcribe" → c.action ≠ some "status" → c.action ≠ some "stats" →
      c.action ≠ some "cleanup" → c.action ≠ some "exit" →
      FunASRServer.handleCommand env s c =
        (s, [("success", JVal.b false),
             ("error", JVal.s ("未知命令: " ++ pyShow c.action))], false)) ∧
    (∀ (env : GLMEnv) (s : GLMState) (c : Command),
      c.action ≠ some "transcribe" → c.action ≠ some "status" → c.action ≠ some "stats" →
      c.action ≠ some "cleanup" → c.action ≠ some "exit" →
      GLMASRServer.handleCommand env s c =
        (s, [("success", JVal.b false),
             ("error", JVal.s ("未知命令: " ++ pyShow c.action))], false)) := by
  constructor <;> intro env s c h1 h2 h3 h4 h5 <;>
    simp [FunASRServer.handleCommand, GLMASRServer.handleCommand, h1, h2, h3, h4, h5]

/-- Witness for unknown_action_no_state_change at a concrete
unrecognized action. -/
theorem unknown_action_no_state_change_witness :
    FunASRServer.handleCommand funEnvOk funasrReady
        { action := some "selfdestruct", audio_path := none, options := noOptions } =
      (funasrReady, [("success", JVal.b false),
        ("error", JVal.s ("未知命令: " ++ pyShow (some "selfdestruct")))], false) ∧
    GLMASRServer.handleCommand glmEnvOk glmReady
        { action := some "selfdestruct", audio_path := none, options := noOptions } =
      (glmReady, [("success", JVal.b false),
        ("error", JVal.s ("未知命令: " ++ pyShow (some "selfdestruct")))], false) :=
  ⟨unknown_action_no_state_change.1 funEnvOk funasrReady
      { action := some "selfdestruct", audio_path := none, options := noOptions }
      (by simp) (by simp) (by simp) (by simp) (by simp),
   unknown_action_no_state_change.2 glmEnvOk glmReady
      { action := some "selfdestruct", audio_path := none, options := noOptions }
      (by simp) (by simp) (by simp) (by simp) (by simp)⟩

/-! ## Protocol-loop step lemmas -/

/-- A non-EOF line that strips to nothing is skipped without output or
state change. -/
theorem runLoop_cons_skip {St : Type} (handle : St → Command → St × Response × Bool)
    (msg : String) (s : St) (l : RawLine) (rest : List RawLine)
    (h1 : l.text ≠ "") (h2 : pyStrip l.text = "") :
    runLoop handle msg s (l :: rest) = runLoop handle msg s rest := by
  simp only [runLoop]
  rw [if_neg h1, if_pos h2]

/-- A non-blank line that fails to decode yields exactly one error
response and the loop continues on the same state. -/
theorem runLoop_cons_invalid {St : Type} (handle : St → Command → St × Response × Bool)
    (msg : String) (s : St) (l : RawLine) (rest : List RawLine)
    (h1 : l.text ≠ "") (h2 : pyStrip l.text ≠ "") (h3 : l.parsed = none) :
    runLoop handle msg s (l :: rest) =
      { state := (runLoop handle msg s rest).state
        outputs := [("success", JVal.b false), ("error", JVal.s msg)] ::
          (runLoop handle msg s rest).outputs
        stopped := (runLoop handle msg s rest).stopped } := by
  simp only [runLoop]
  rw [if_neg h1, if_neg h2, h3]

/-- A decoded command whose handling does not break the loop
contributes its response and the loop continues on the new state. -/
theorem runLoop_cons_cmd {St : Type} (handle : St → Command → St × Response × Bool)
    (msg : String) (s : St) (l : RawLine) (rest : List RawLine) (c : Command)
    (h1 : l.text ≠ "") (h2 : pyStrip l.text ≠ "") (h3 : l.parsed = some c)
    (h4 : (handle s c).2.2 = false) :
    runLoop handle msg s (l :: rest) =
      { state := (runLoop handle msg (handle s c).1 rest).state
        outputs := (handle s c).2.1 :: (runLoop handle msg (handle s c).1 rest).outputs
        stopped := (runLoop handle msg (handle s c).1 rest).stopped } := by
  rcases hH : handle s c with ⟨s', r, brk⟩
  rw [hH] at h4
  simp only at h4
  subst h4
  simp only [runLoop]
  rw [if_neg h1, if_neg h2, h3]
  dsimp only
  rw [hH]

/-- A decoded command whose handling breaks the loop makes its
response the last output and stops the loop with the exitCommand
reason. -/
theorem runLoop_cons_break {St : Type} (handle : St → Command → St × Response × Bool)
    (msg : String) (s : St) (l : RawLine) (rest : List RawLine) (c : Command)
    (h1 : l.text ≠ "") (h2 : pyStrip l.text ≠ "") (h3 : l.parsed = some c)
    (h4 : (handle s c).2.2 = true) :
    runLoop handle msg s (l :: rest) =
      { state := (handle s c).1
        outputs := [(handle s c).2.1]
        stopped := StopReason.exitCommand } := by
  rcases hH : handle s c with ⟨s', r, brk⟩
  rw [hH] at h4
  simp only at h4
  subst h4
  simp only [runLoop]
  rw [if_neg h1, if_neg h2, h3]
  dsimp only
  rw [hH]

/-- The FunASR dispatch chain breaks the loop only on the exit
action. -/
theorem funasr_handle_break_only_exit (env : FunEnv) (s : FunState) (c : Command)
    (h : c.action ≠ some "exit") : (FunASRServer.handleCommand env s c).2.2 = false := by
  unfold FunASRServer.handleCommand
  by_cases h1 : c.action = some "transcribe"
  · rw [if_pos h1]
  · rw [if_neg h1]
    by_cases h2 : c.action = some "status"
    · rw [if_pos h2]
    · rw [if_neg h2]
      by_cases h3 : c.action = some "stats"
      · rw [if_pos h3]
      · rw [if_neg h3]
        by_cases h4 : c.action = some "cleanup"
        · rw [if_pos h4]
        · rw [if_neg h4, if_neg h]

/-- On the exit action the FunASR dispatch chain returns the success
acknowledgment, the unchanged state and the break flag. -/
theorem funasr_handle_exit (env : FunEnv) (s : FunState) (c : Command)
    (h : c.action = some "exit") :
    FunASRServer.handleCommand env s c = (s, exitAck, true) := by
  unfold FunASRServer.handleCommand
  rw [if_neg (by simp [h]), if_neg (by simp [h]), if_neg (by simp [h]),
      if_neg (by simp [h]), if_pos h]
  rfl

/-- The FireRedASR dispatch chain breaks the loop only on the exit
action. -/
theorem firered_handle_break_only_exit (env : FireEnv) (s : FireState) (c : Command)
    (h : c.action ≠ some "exit") : (FireRedASRServer.handleCommand env s c).2.2 = false := by
  unfold FireRedASRServer.handleCommand
  by_cases h1 : c.action = some "transcribe"
  · rw [if_pos h1]
  · rw [if_neg h1]
    by_cases h2 : c.action = some "status"
    · rw [if_pos h2]
    · rw [if_neg h2]
      by_cases h3 : c.action = some "stats"
      · rw [if_pos h3]
      · rw [if_neg h3]
        by_cases h4 : c.action = some "cleanup"
        · rw [if_pos h4]
        · rw [if_neg h4, if_neg h]

/-- On the exit action the FireRedASR dispatch chain returns the
success acknowledgment, the unchanged state and the break flag. -/
theorem firered_handle_exit (env : FireEnv) (s : FireState) (c : Command)
    (h : c.action = some "exit") :
    FireRedASRServer.handleCommand env s c = (s, exitAck, true) := by
  unfold FireRedASRServer.handleCommand
  rw [if_neg (by simp [h]), if_neg (by simp [h]), if_neg (by simp [h]),
      if_neg (by simp [h]), if_pos h]
  rfl

/-- Generic protocol-loop run ending in an exit command: provided the
handler breaks exactly on exit (answering the fixed acknowledgment),
and no line before the exit line ends the stream or decodes to exit,
the run emits the responses of the prefix followed by the
acknowledgment as the last output, ignores everything after the exit
line, and stops with the exitCommand reason. -/
theorem runLoop_exit_run {St : Type} (handle : St → Command → St × Response × Bool)
    (msg : String)
    (hbrk : ∀ s c, c.action ≠ some "exit" → (handle s c).2.2 = false)
    (hexit : ∀ s c, c.action = some "exit" → handle s c = (s, exitAck, true)) :
    ∀ (pre : List RawLine) (s : St) (post : List RawLine) (le : RawLine) (ce : Command),
      le.text ≠ "" → pyStrip le.text ≠ "" → le.parsed = some ce → ce.action = some "exit" →
      (∀ l ∈ pre, keepsReading l = true) →
      runLoop handle msg s (pre ++ le :: post) =
        { state := (runLoop handle msg s pre).state
          outputs := (runLoop handle msg s pre).outputs ++ [exitAck]
          stopped := StopReason.exitCommand } := by
  intro pre
  induction pre with
  | nil =>
    intro s post le ce h1 h2 h3 h4 _
    rw [List.nil_append,
        runLoop_cons_break handle msg s le post ce h1 h2 h3 (by rw [hexit s ce h4]),
        hexit s ce h4]
    simp [runLoop]
  | cons l pre' ih =>
    intro s post le ce h1 h2 h3 h4 hpre
    have hl := hpre l (List.mem_cons_self l pre')
    have hlrest : ∀ x ∈ pre', keepsReading x = true :=
      fun x hx => hpre x (List.mem_cons_of_mem l hx)
    have hltext : l.text ≠ "" := by
      intro hx
      simp [keepsReading, hx] at hl
    rw [List.cons_append]
    by_cases hb : pyStrip l.text = ""
    · rw [runLoop_cons_skip handle msg s l _ hltext hb,
          runLoop_cons_skip handle msg s l pre' hltext hb]
      exact ih s post le ce h1 h2 h3 h4 hlrest
    · rcases hp : l.parsed with _ | c
      · rw [runLoop_cons_invalid handle msg s l _ hltext hb hp,
            runLoop_cons_invalid handle msg s l pre' hltext hb hp,
            ih s post le ce h1 h2 h3 h4 hlrest]
        simp
      · have hcne : c.action ≠ some "exit" := by
          intro hx
          simp [keepsReading, isExitParse, hp, hx] at hl
        have hnb := hbrk s c hcne
        rw [runLoop_cons_cmd handle msg s l _ c hltext hb hp hnb,
            runLoop_cons_cmd handle msg s l pre' c hltext hb hp hnb,
            ih (handle s c).1 post le ce h1 h2 h3 h4 hlrest]
        simp

/-! ## Claim C9 -/

/-- C9: on the FunASR and FireRedASR servers, a run whose input
carries an exit command (after any prefix of lines that neither end
the stream nor decode to exit) emits the prefix's responses followed
by the success acknowledgment as the very last output line — nothing
after the exit line produces output — and the protocol loop stops with
the exitCommand reason (the loop ends; the process is not killed
inside the loop), so the acknowledgment is written before shutdown. -/
theorem exit_ack_is_last_output :
    (∀ (env : FunEnv) (pre post : List RawLine) (le : RawLine) (ce : Command),
      le.text ≠ "" → pyStrip le.text ≠ "" → le.parsed = some ce → ce.action = some "exit" →
      (∀ l ∈ pre, keepsReading l = true) →
      (FunASRServer.runServer env (pre ++ le :: post)).outputs =
        (FunASRServer.runServer env pre).outputs ++ [exitAck] ∧
      (FunASRServer.runServer env (pre ++ le :: post)).stopped = StopReason.exitCommand) ∧
    (∀ (env : FireEnv) (pre post : List RawLine) (le : RawLine) (ce : Command),
      le.text ≠ "" → pyStrip le.text ≠ "" → le.parsed = some ce → ce.action = some "exit" →
      (∀ l ∈ pre, keepsReading l = true) →
      (FireRedASRServer.runServer env (pre ++ le :: post)).outputs =
        (FireRedASRServer.runServer env pre).outputs ++ [exitAck] ∧
      (FireRedASRServer.runServer env (pre ++ le :: post)).stopped = StopReason.exitCommand) ∧
    isSuccess exitAck = true := by
  refine ⟨?_, ?_, rfl⟩
  · intro env pre post le ce h1 h2 h3 h4 hpre
    unfold FunASRServer.runServer
    rcases hS : FunASRServer.startup env funasrStart with ⟨s1, r0, ev⟩
    dsimp only
    rw [runLoop_exit_run (FunASRServer.handleCommand env) "无效的JSON命令"
        (fun s c h => funasr_handle_break_only_exit env s c h)
        (fun s c h => funasr_handle_exit env s c h)
        pre s1 post le ce h1 h2 h3 h4 hpre]
    simp
  · intro env pre post le ce h1 h2 h3 h4 hpre
    unfold FireRedASRServer.runServer
    rcases hS : FireRedASRServer.initModels env fireredStart with ⟨s1, r0, ev⟩
    dsimp only
    rw [runLoop_exit_run (FireRedASRServer.handleCommand env) "无效的 JSON 命令"
        (fun s c h => firered_handle_break_only_exit env s c h)
        (fun s c h => firered_handle_exit env s c h)
        pre s1 post le ce h1 h2 h3 h4 hpre]
    simp

/-- Witness for exit_ack_is_last_output with a prefix of one blank
line and one malformed line, and a stats command after the exit. -/
theorem exit_ack_is_last_output_witness :
    ((FunASRServer.runServer funEnvOk
        ([blankLine, badLine] ++ exitLine :: [statsLine])).outputs =
      (FunASRServer.runServer funEnvOk [blankLine, badLine]).outputs ++ [exitAck] ∧
     (FunASRServer.runServer funEnvOk
        ([blankLine, badLine] ++ exitLine :: [statsLine])).stopped =
      StopReason.exitCommand) ∧
    ((FireRedASRServer.runServer fireEnvOk
        ([blankLine, badLine] ++ exitLine :: [statsLine])).outputs =
      (FireRedASRServer.runServer fireEnvOk [blankLine, badLine]).outputs ++ [exitAck] ∧
     (FireRedASRServer.runServer fireEnvOk
        ([blankLine, badLine] ++ exitLine :: [statsLine])).stopped =
      StopReason.exitCommand) :=
  ⟨exit_ack_is_last_output.1 funEnvOk [blankLine, badLine] [statsLine] exitLine
      { action := some "exit", audio_path := none, options := noOptions }
      (by decide) (by decide) rfl rfl (by decide),
   exit_ack_is_last_output.2.1 fireEnvOk [blankLine, badLine] [statsLine] exitLine
      { action := some "exit", audio_path := none, options := noOptions }
      (by decide) (by decide) rfl rfl (by decide)⟩

/-! ## Claim C10 -/

/-- C10: in the shared protocol loop (instantiated by all three
servers), a non-EOF input line that is empty after stripping
whitespace produces no response at all and changes no state — the run
continues exactly as if the line had not been sent — while a non-blank
line that fails to decode as JSON produces exactly one error response,
leaves the state unchanged, and the loop continues reading. -/
theorem blank_line_no_response :
    (∀ (St : Type) (handle : St → Command → St × Response × Bool) (msg : String)
       (s : St) (l : RawLine) (rest : List RawLine),
       l.text ≠ "" → pyStrip l.text = "" →
       runLoop handle msg s (l :: rest) = runLoop handle msg s rest) ∧
    (∀ (St : Type) (handle : St → Command → St × Response × Bool) (msg : String)
       (s : St) (l : RawLine) (rest : List RawLine),
       l.text ≠ "" → pyStrip l.text ≠ "" → l.parsed = none →
       runLoop handle msg s (l :: rest) =
         { state := (runLoop handle msg s rest).state
           outputs := [("success", JVal.b false), ("error", JVal.s msg)] ::
             (runLoop handle msg s rest).outputs
           stopped := (runLoop handle msg s rest).stopped }) :=
  ⟨fun _ handle msg s l rest h1 h2 => runLoop_cons_skip handle msg s l rest h1 h2,
   fun _ handle msg s l rest h1 h2 h3 => runLoop_cons_invalid handle msg s l rest h1 h2 h3⟩

/-- Witness for blank_line_no_response on the FunASR loop with a
whitespace-only line and a malformed line. -/
theorem blank_line_no_response_witness :
    runLoop (FunASRServer.handleCommand funEnvOk) "无效的JSON命令" funasrStart [blankLine] =
      runLoop (FunASRServer.handleCommand funEnvOk) "无效的JSON命令" funasrStart [] ∧
    runLoop (FunASRServer.handleCommand funEnvOk) "无效的JSON命令" funasrStart [badLine] =
      { state := (runLoop (FunASRServer.handleCommand funEnvOk) "无效的JSON命令"
          funasrStart []).state
        outputs := [("success", JVal.b false), ("error", JVal.s "无效的JSON命令")] ::
          (runLoop (FunASRServer.handleCommand funEnvOk) "无效的JSON命令"
            funasrStart []).outputs
        stopped := (runLoop (FunASRServer.handleCommand funEnvOk) "无效的JSON命令"
          funasrStart []).stopped } :=
  ⟨blank_line_no_response.1 FunState (FunASRServer.handleCommand funEnvOk) "无效的JSON命令"
      funasrStart blankLine [] (by decide) (by decide),
   blank_line_no_response.2 FunState (FunASRServer.handleCommand funEnvOk) "无效的JSON命令"
      funasrStart badLine [] (by decide) (by decide) rfl⟩
